import Mathlib

/-!
Verification of the naming, aggregation and resource-builder logic of the
`web-products-scripts` repository.

The repository is a build-time generator: it reads YAML configuration
(variables, models, packages, contour settings), merges it against JSON
templates and writes one JSON file per generated resource (package, product,
layer, style).  The development below gives a shallow embedding of the parts
of the code the claims talk about:

* JSON-like records are modelled by the inductive `Json`; Python `dict`
  operations (`d[k]`, `d.update`, `d.get`, nested update, `list.append`) are
  modelled by explicit functions on `Json` with Python's error behaviour made
  explicit through `Except PyError`.
* Python exceptions (`ValueError`, `KeyError`, `TypeError`, ...) are modelled
  by the `PyError` type; a raising code path is an `Except.error`.
* The pure string transforms of `utils.py` / `file_utils.py` are modelled as
  Lean string functions.
* The builder functions of `resource_utils.py`, `create_forecast_layers.py`,
  `create_forecast_styles.py`, `yaml_processor.py` and the aggregation loop of
  `create_cams_definitions.py` are translated function by function.
* The file system is modelled by `FileSys`; `main`'s clear-and-rebuild of the
  four output directories is modelled by `clearManaged`/`writeAll`.
-/

/-- Model of a JSON-like Python value (the values held in the generated
resource records and the templates). Python `None` is `Json.null`. -/
inductive Json where
  | null
  | bool (b : Bool)
  | int (n : Int)
  | str (s : String)
  | arr (xs : List Json)
  | obj (fields : List (String × Json))
deriving Repr

/-- Model of the Python exceptions raised by the scripts. -/
inductive PyError where
  | valueError (msg : String)
  | keyError (msg : String)
  | typeError (msg : String)
  | attributeError (msg : String)
  | indexError (msg : String)
  | nameError (msg : String)
deriving Repr, DecidableEq

/-- Association-list lookup, the model of a Python `dict.get(k)` (first match;
Python dict keys are unique). -/
def lookupS {α : Type} : List (String × α) → String → Option α
  | [], _ => none
  | (k, v) :: rest, key => if k = key then some v else lookupS rest key

/-- Update one key of an association list the way a Python `dict` assignment
does: an existing key keeps its position and gets the new value, a new key is
appended at the end. -/
def setF : List (String × Json) → String → Json → List (String × Json)
  | [], k, v => [(k, v)]
  | (k1, v1) :: rest, k, v =>
      if k1 = k then (k, v) :: rest else (k1, v1) :: setF rest k v

/-- Apply a sequence of key updates in order, the model of `dict.update`. -/
def applyUpdates (fs : List (String × Json)) (us : List (String × Json)) :
    List (String × Json) :=
  us.foldl (fun acc kv => setF acc kv.1 kv.2) fs

/-- Model of `d.update({...})` on a Json value: only a dict has `update`,
any other receiver raises `AttributeError`. -/
def Json.update : Json → List (String × Json) → Except PyError Json
  | .obj fs, us => .ok (.obj (applyUpdates fs us))
  | _, _ => .error (.attributeError "update")

/-- Model of `d[k]` for reading: raises `KeyError` when the key is absent and
`TypeError` when the receiver is not a dict. -/
def Json.getE : Json → String → Except PyError Json
  | .obj fs, k =>
      match lookupS fs k with
      | some v => .ok v
      | none => .error (.keyError k)
  | _, _ => .error (.typeError "object is not subscriptable")

/-- Model of `d.get(k)` (returns `None` as `Option.none` when absent). -/
def Json.get? : Json → String → Option Json
  | .obj fs, k => lookupS fs k
  | _, _ => none

/-- Model of `d[k1][k2]...update({...})`: walk the key path and update the
dict found at its end, raising the corresponding Python error on a missing
key or a non-dict receiver. -/
def Json.updatePath : Json → List String → List (String × Json) → Except PyError Json
  | j, [], us => j.update us
  | .obj fs, k :: rest, us =>
      match lookupS fs k with
      | none => .error (.keyError k)
      | some v =>
          match v.updatePath rest us with
          | .ok v2 => .ok (.obj (setF fs k v2))
          | .error e => .error e
  | _, _ :: _, _ => .error (.typeError "object is not subscriptable")

/-- Model of `d[k].append(x)`: the value at `k` must be a list; the element is
appended at the end. -/
def Json.appendAt : Json → String → Json → Except PyError Json
  | .obj fs, k, x =>
      match lookupS fs k with
      | some (.arr xs) => .ok (.obj (setF fs k (.arr (xs ++ [x]))))
      | some _ => .error (.attributeError "append")
      | none => .error (.keyError k)
  | _, _, _ => .error (.typeError "object is not subscriptable")

/-- Python truthiness of a value, as used by `if var_data.get("hidden", True):`. -/
def pyTruthy : Json → Bool
  | .null => false
  | .bool b => b
  | .int n => n != 0
  | .str s => s != ""
  | .arr xs => !xs.isEmpty
  | .obj fs => !fs.isEmpty

/-- Python string comparison on char lists: code-point lexicographic order. -/
def charsLe : List Char → List Char → Bool
  | [], _ => true
  | _ :: _, [] => false
  | a :: as, b :: bs =>
      if a.toNat < b.toNat then true
      else if a.toNat = b.toNat then charsLe as bs
      else false

/-- Python `s <= t` on strings (code-point lexicographic order). -/
def strLe (s t : String) : Bool := charsLe s.data t.data

/-- Model of Python `s.replace(pat, rep)` for a non-empty pattern: replaces
every non-overlapping occurrence, scanning left to right. The fuel argument
(instantiated with the string length plus one) only makes the recursion
structural; it never runs out because every step consumes a character. -/
def pyReplaceAux (pat rep : List Char) : Nat → List Char → List Char
  | 0, l => l
  | _ + 1, [] => []
  | n + 1, c :: rest =>
      if pat.isPrefixOf (c :: rest) then
        rep ++ pyReplaceAux pat rep n ((c :: rest).drop pat.length)
      else c :: pyReplaceAux pat rep n rest

/-- Python `s.replace(pat, rep)` (non-empty `pat`). -/
def pyReplace (s pat rep : String) : String :=
  ⟨pyReplaceAux pat.data rep.data (s.data.length + 1) s.data⟩

/-- Worker for `pySplit`, accumulating the current segment in reverse. -/
def pySplitAux (pat : List Char) : Nat → List Char → List Char → List (List Char)
  | 0, acc, l => [acc.reverse ++ l]
  | _ + 1, acc, [] => [acc.reverse]
  | n + 1, acc, c :: rest =>
      if pat.isPrefixOf (c :: rest) then
        acc.reverse :: pySplitAux pat n [] ((c :: rest).drop pat.length)
      else
        pySplitAux pat n (c :: acc) rest

/-- Python `s.split(pat)` for a non-empty separator. -/
def pySplit (s pat : String) : List String :=
  (pySplitAux pat.data (s.data.length + 1) [] s.data).map (fun l => ⟨l⟩)

/-- Python `pat in s` (substring containment), expressed through the split:
the separator occurs in `s` iff the split has at least two segments. -/
def pyContains (s pat : String) : Bool := (pySplit s pat).length ≥ 2

/-- Worker for `pyTitle`: a letter is uppercased when it does not follow a
letter and lowercased otherwise, as Python `str.title` does. -/
def pyTitleAux : Bool → List Char → List Char
  | _, [] => []
  | prevAlpha, c :: rest =>
      if c.isAlpha then
        (if prevAlpha then c.toLower else c.toUpper) :: pyTitleAux true rest
      else c :: pyTitleAux false rest

/-- Python `s.title()` (ASCII identifiers only appear in this code base). -/
def pyTitle (s : String) : String := ⟨pyTitleAux false s.data⟩

/-- Python `s.lower()` (ASCII, as in this code base). -/
def pyLower (s : String) : String := ⟨s.data.map Char.toLower⟩

/-- Python `s.startswith(pat)`. -/
def hasHead (s pat : String) : Bool := pat.data.isPrefixOf s.data

/-- Python `s.endswith(pat)`. -/
def hasTail (s pat : String) : Bool := pat.data.isSuffixOf s.data

/-- Drop the first `n` characters of a string (Python `s[n:]`). -/
def dropHead (s : String) (n : Nat) : String := ⟨s.data.drop n⟩

/-- Drop the last `n` characters of a string (Python `s[:-n]`). -/
def dropTail (s : String) (n : Nat) : String := ⟨s.data.take (s.data.length - n)⟩

/-- Python `sep.join(parts)`. -/
def joinWith (sep : String) : List String → String
  | [] => ""
  | [x] => x
  | x :: y :: rest => x ++ sep ++ joinWith sep (y :: rest)

/-- Insert a key-value pair into a key-sorted list (helper for the sorted-keys
serialization). -/
def insertByKey (p : String × String) : List (String × String) → List (String × String)
  | [] => [p]
  | q :: rest => if strLe p.1 q.1 then p :: q :: rest else q :: insertByKey p rest

/-- Sort a list of (key, rendered value) pairs by key (ascending), the model
of `sort_keys=True`. -/
def sortByKey (l : List (String × String)) : List (String × String) :=
  l.foldr insertByKey []

/-- Insert a string into a sorted list of strings. -/
def insertStr (s : String) : List String → List String
  | [] => [s]
  | t :: rest => if strLe s t then s :: t :: rest else t :: insertStr s rest

/-- Model of Python `sorted` on a list of strings (ascending). -/
def sortStrings (l : List String) : List String := l.foldr insertStr []

/-- Model of the serialization performed by `write_layer` (`json.dump` with
`sort_keys=True`): a deterministic rendering of a `Json` value in which the
keys of every object are emitted in ascending order. The indentation detail
of `indent=4` is abstracted; only the fact that serialization is a function
of the value (with sorted keys) matters for the claims. -/
def Json.ser : Json → String
  | .null => "null"
  | .bool true => "true"
  | .bool false => "false"
  | .int n => toString n
  | .str s => "\"" ++ s ++ "\""
  | .arr xs => "[" ++ String.intercalate ", " (xs.attach.map (fun x => Json.ser x.1)) ++ "]"
  | .obj fs =>
      "\x7b" ++
        String.intercalate ", "
          ((sortByKey (fs.attach.map (fun kv => (kv.1.1, Json.ser kv.1.2)))).map
            (fun q => "\"" ++ q.1 ++ "\": " ++ q.2)) ++
      "\x7d"
decreasing_by
  · have h := List.sizeOf_lt_of_mem x.2
    simp [Json.arr.sizeOf_spec]
    omega
  · have h := List.sizeOf_lt_of_mem kv.2
    have h2 : sizeOf (kv : String × Json).2 < sizeOf (kv : String × Json) := by
      obtain ⟨⟨k, v⟩, hm⟩ := kv
      simp [Prod.mk.sizeOf_spec]
    simp [Json.obj.sizeOf_spec]
    omega

/-- Embeds `generate_short_names` from `utils.py` (an identical copy lives in
`file_utils.py`):
`re.sub(r"^C_|_USI$", "", backend_api_name).lower().replace("pm25", "pm2p5")`
followed by `short_name.replace("_", " ")`. The anchored alternation of the
regular expression removes one occurrence of the prefix `C_` and one
occurrence of the suffix `_USI` (scanning left to right, so an overlapping
suffix inside the consumed prefix is never removed twice), which is exactly
the strip-prefix-then-strip-suffix composition written here. -/
def generate_short_names (backend_api_name : String) : String × String :=
  let afterHead : String :=
    if hasHead backend_api_name "C_" then dropHead backend_api_name 2 else backend_api_name
  let afterTail : String :=
    if hasTail afterHead "_USI" then dropTail afterHead 4 else afterHead
  let short_name := pyReplace (pyLower afterTail) "pm25" "pm2p5"
  let short_name_with_spaces := pyReplace short_name "_" " "
  (short_name, short_name_with_spaces)

/-- Reference definition written from the spec's words (Name Deriver
contract): strip the fixed machine-generated head `C_` and tail `_USI`,
lowercase, apply the single hard-coded synonym substitution `pm25 → pm2p5`,
and return the underscore form together with the space-separated form. -/
def specShortNames (s : String) : String × String :=
  let stripped :=
    let s1 := if hasHead s "C_" then dropHead s 2 else s
    if hasTail s1 "_USI" then dropTail s1 4 else s1
  let underscoreForm := pyReplace (pyLower stripped) "pm25" "pm2p5"
  (underscoreForm, pyReplace underscoreForm "_" " ")

/-- Embeds the long-name derivation that appears inline in
`create_forecast_layers.py` (line 66), `create_grouped_products.py` (line 63)
and `resource_utils.py` (lines 303-307):
`f"PM{var_name.split('_')[-1][:-2]}" if var_name.startswith("particulate")
else var_name.replace("_", " ")`.
The same rule is the spec's Name Deriver contract for
`generate_long_name`, which `resource_utils.py` imports from
`file_utils.py` where it is not defined; this definition stands for both. -/
def generate_long_name (var_name : String) : String :=
  if hasHead var_name "particulate" then
    "PM" ++ (dropTail ((pySplit var_name "_").getLastD "") 2)
  else
    pyReplace var_name "_" " "

/-- Modelled from the spec: `generate_layer_name` is imported by
`resource_utils.py` from `file_utils.py` but is not defined anywhere under
the sources. Per the spec's Name Deriver contract a layer name is composed as
`composition_europe_<short_name>_forecast_surface`; the call sites pass the
parts `("composition_europe", short_name, "forecast", "surface", suffix)`
with `suffix` empty for the web variant, so the parts are joined with
underscores and the variant suffix is appended. -/
def generate_layer_name (head sn kind level suffix : String) : String :=
  head ++ "_" ++ sn ++ "_" ++ kind ++ "_" ++ level ++ suffix

/-- Model of `copy.deepcopy` on JSON-like data: it produces a structurally
equal value that shares nothing with the original. In a value semantics the
copy is the value itself; the point of the call in every builder is that
later writes to the copy cannot alias the template object. -/
def deepcopy (j : Json) : Json := j

/-- Model of `d[k] = v` on a Json value (dict item assignment). -/
def Json.setKey : Json → String → Json → Except PyError Json
  | .obj fs, k, v => .ok (.obj (setF fs k v))
  | _, _, _ => .error (.typeError "object does not support item assignment")

/-- One `grib_representations` entry of a variable record (only the
`constituentType` field is read by the builders). -/
structure GribRep where
  constituentType : Nat
deriving Repr, DecidableEq

/-- One `grib_representations` entry of a model record (`centre` and
`subCentre` are read by the builders). -/
structure CentreRep where
  centre : Nat
  subCentre : Nat
deriving Repr, DecidableEq

/-- A model record of the variable/model configuration. -/
structure ModelData where
  form_label : String
  grib_representations : List CentreRep
deriving Repr, DecidableEq

/-- A variable record of the variable/model configuration. The `hidden`
attribute is optional in the YAML, hence `Option Json` (its Python truthiness
is what the loops test). -/
structure VarData where
  backend_api_name : String
  var_table_units : String
  grib_representations : List GribRep
  hidden : Option Json
deriving Repr

/-- The re-keyed variable/model configuration built by the `main` functions:
`{key: {item["frontend_api_name"]: item for item in config[key]} for key in
["model", "variable"]}`. Modelled as insertion-ordered association lists;
`varMap` stands for the `"variable"` section and `model` for the `"model"`
section (the former cannot keep the source's key as a Lean field name). -/
structure VarConfig where
  varMap : List (String × VarData)
  model : List (String × ModelData)
deriving Repr

/-- A Python value that is either a string or a list of strings (the shape of
the `levels` package attribute and of the `input_vars` product argument). -/
inductive PyStrList where
  | strv (s : String)
  | listv (l : List String)
deriving Repr, DecidableEq

/-- A named variable group of a package's `products: grouped:` section;
`varNames` stands for the group's `variables` list (the source's key is a
reserved word in Lean). -/
structure GroupData where
  title : String
  varNames : List String
deriving Repr, DecidableEq

/-- The package attributes read by `create_package`, `create_product` and
`process_package`. -/
structure PackageData where
  package_name : String
  base_name : String
  base_title : String
  title : String
  description : String
  flag : String
  levels : PyStrList
  grouped : List (String × GroupData)
deriving Repr

/-- The per-variant contour/colour settings of the style configuration
(`plot_settings.yaml`): `contour_levels` maps a parameter to its level list,
`colours` maps a parameter (or the shared key `"common"`) to a colour list. -/
structure VariantSettings where
  contour_levels : List (String × List Int)
  colours : List (String × List String)
deriving Repr, DecidableEq

/-- Python `"%.0f"`-style formatting (`f"{x:.0f}"`) of an integer-valued
contour level: the decimal rendering of the integer. -/
def fmtF0 (n : Int) : String := toString n

namespace ForecastLayers

/-- Embeds `create_style_list` from `create_forecast_layers.py` (lines 34-46).
The same construction appears textually inlined in `create_layer` of
`resource_utils.py` (lines 309-328), which reuses this definition. -/
def create_style_list (var_name short_name : String) : List String :=
  let style := "sh_" ++ short_name ++ "_web_surface_concentration"
  let style_list := [style]
  let style_list :=
    if var_name ∈ ["nitrogen_dioxide", "ozone", "particulate_matter_2p5um",
        "particulate_matter_10um", "sulphur_dioxide"] then
      style_list ++ ["sh_" ++ short_name ++ "_aqi_surface_concentration"]
    else style_list
  style_list ++
    ["sh_Reds_surface_concentration",
     "sh_Purples_surface_concentration",
     "sh_Greens_surface_concentration",
     "sh_Oranges_surface_concentration"]

end ForecastLayers

namespace ResourceUtils

/-- Worker for `create_click_features` in the grouped branch: one options
entry per variable, with the missing-metadata check of lines 68-70. -/
def clickOptions (var_config : VarConfig) (suffix : String) :
    List String → Except PyError (List Json)
  | [] => .ok []
  | var_name :: rest =>
      match lookupS var_config.varMap var_name with
      | none => .error (.valueError ("No variable metadata found for '" ++ var_name ++ "'."))
      | some var_data =>
          let short_name := (generate_short_names var_data.backend_api_name).1
          let long_name := generate_long_name var_name
          let layer_name :=
            generate_layer_name "composition_europe" short_name "forecast" "surface" suffix
          match clickOptions var_config suffix rest with
          | .ok os =>
              .ok (Json.obj
                [("key", .str "layer_name"),
                 ("product", .str ("plume_cams_eu_" ++ var_name ++ suffix)),
                 ("title", .str ("Ground-level " ++ long_name ++ " concentrations")),
                 ("value", .str layer_name)] :: os)
          | .error e => .error e

/-- Embeds `create_click_features` from `resource_utils.py` (lines 44-92). -/
def create_click_features (var_list : List String) (var_config : VarConfig)
    (suffix : String) : Except PyError Json :=
  match var_list with
  | [var_name] =>
      match lookupS var_config.varMap var_name with
      | none => .error (.valueError ("No variable metadata found for '" ++ var_name ++ "'."))
      | some _ =>
          let long_name := generate_long_name var_name
          .ok (.obj
            [("feature", .str "cams_plumes"),
             ("options", .arr
               [.obj
                 [("product", .str ("plume_cams_eu_" ++ var_name ++ pyReplace suffix "-" "_")),
                  ("title", .str ("Ground-level " ++ long_name ++ " concentrations"))]]),
             ("tooltip", .str ("Click on the map to see the graph of forecasted ground-level "
               ++ long_name ++ " concentrations for that location"))])
  | _ =>
      match clickOptions var_config suffix var_list with
      | .ok options =>
          .ok (.obj
            [("feature", .str "cams_plumes"),
             ("options", .arr options),
             ("tooltip", .str "Click to generate a plume plot")])
      | .error e => .error e

/-- Worker for `create_layer_name_variable`: the labels and values lists.
The source (lines 99-108) calls `var_config["variable"].get(var_name)` and
then immediately subscripts the result with no `None` check, so a missing
variable raises `TypeError` (`'NoneType' object is not subscriptable`)
rather than the missing-metadata `ValueError` of the sibling builders. -/
def layerNameEntries (var_config : VarConfig) (suffix : String) :
    List String → Except PyError (List String × List String)
  | [] => .ok ([], [])
  | var_name :: rest =>
      let label := pyTitle (pyReplace var_name "_" " ")
      match lookupS var_config.varMap var_name with
      | none => .error (.typeError "'NoneType' object is not subscriptable")
      | some var_data =>
          let short_name := (generate_short_names var_data.backend_api_name).1
          let layer_name :=
            generate_layer_name "composition_europe" short_name "forecast" "surface" suffix
          match layerNameEntries var_config suffix rest with
          | .ok (ls, vs) => .ok (label :: ls, layer_name :: vs)
          | .error e => .error e

/-- Embeds `create_layer_name_variable` from `resource_utils.py`
(lines 95-116). -/
def create_layer_name_variable (var_list : List String) (var_config : VarConfig)
    (suffix : String) : Except PyError Json :=
  match layerNameEntries var_config suffix var_list with
  | .ok (labels, values) =>
      .ok (.obj
        [("name", .str "layer_name"),
         ("title", .str "Parameter"),
         ("type", .str "choice"),
         ("labels", .arr (labels.map .str)),
         ("values", .arr (values.map .str))])
  | .error e => .error e

/-- Worker for `create_models_variable`: labels and values of the non-ensemble
models, iterated in sorted key order. -/
def modelEntries (models : List (String × ModelData)) :
    List String → Except PyError (List String × List String)
  | [] => .ok ([], [])
  | m :: rest =>
      if m = "ensemble" then modelEntries models rest
      else
        match lookupS models m with
        | none => .error (.keyError m)
        | some md =>
            match md.grib_representations with
            | [] => .error (.indexError "list index out of range")
            | oc :: _ =>
                match modelEntries models rest with
                | .ok (ls, vs) =>
                    .ok (md.form_label :: ls,
                      (toString oc.centre ++ "_" ++ toString oc.subCentre) :: vs)
                | .error e => .error e

/-- Embeds `create_models_variable` from `resource_utils.py` (lines 119-144):
the ensemble model first, then the remaining models in sorted name order.
`create_grouped_products.py` (lines 33-58) contains a textually identical
copy of this function, which this definition also stands for. -/
def create_models_variable (var_config : VarConfig) : Except PyError Json :=
  match lookupS var_config.model "ensemble" with
  | none => .error (.keyError "ensemble")
  | some ens =>
      match ens.grib_representations with
      | [] => .error (.indexError "list index out of range")
      | oc :: _ =>
          match modelEntries var_config.model (sortStrings (var_config.model.map Prod.fst)) with
          | .error e => .error e
          | .ok (ls, vs) =>
              .ok (.obj
                [("name", .str "originating_centre"),
                 ("title", .str "Model"),
                 ("type", .str "choice"),
                 ("values", .arr (((toString oc.centre ++ "_" ++ toString oc.subCentre) :: vs).map .str)),
                 ("labels", .arr ((ens.form_label :: ls).map .str))])

/-- The `label_mapping` lookup of `create_height_variable`; an unknown level
raises `KeyError` as a Python dict subscript does. -/
def heightLabel : String → Except PyError String
  | "surface" => .ok "Surface"
  | "100m" => .ok "100 m"
  | "1000m" => .ok "1000 m"
  | "3000m" => .ok "3000 m"
  | "5000m" => .ok "5000 m"
  | other => .error (.keyError other)

/-- The `value_mapping` lookup of `create_height_variable`. -/
def heightValue : String → Except PyError String
  | "surface" => .ok "key_0"
  | "100m" => .ok "key_100"
  | "1000m" => .ok "key_1000"
  | "3000m" => .ok "key_3000"
  | "5000m" => .ok "key_5000"
  | other => .error (.keyError other)

/-- Embeds `create_height_variable` from `resource_utils.py` (lines 147-179):
returns Python `None` (serialized as JSON `null`) when the levels are
`"surface"` or `["surface"]`, and the height-choice record otherwise. -/
def create_height_variable (levels : PyStrList) : Except PyError Json :=
  if levels = .strv "surface" ∨ levels = .listv ["surface"] then .ok .null
  else
    let ls := match levels with
      | .strv s => [s]
      | .listv l => l
    match ls.mapM heightLabel, ls.mapM heightValue with
    | .ok labels, .ok values =>
        .ok (.obj
          [("name", .str "level"),
           ("title", .str "Height level"),
           ("type", .str "choice"),
           ("labels", .arr (labels.map .str)),
           ("values", .arr (values.map .str))])
    | .error e, _ => .error e
    | _, .error e => .error e

end ResourceUtils

/-- The fixed statistics-type selector appended to every layer, identical in
`resource_utils.py` (lines 352-359) and `create_forecast_layers.py`
(lines 92-98). -/
def streamVariable : Json :=
  .obj
    [("name", .str "stream"),
     ("title", .str "Statistics type"),
     ("type", .str "choice"),
     ("menu", .str "true"),
     ("values", .arr [.str "oper", .str "dame", .str "damx"])]

/-- The fixed data-type selector appended to every layer, identical in
`resource_utils.py` (lines 361-369) and `create_forecast_layers.py`
(lines 99-105). -/
def typeVariable : Json :=
  .obj
    [("name", .str "type"),
     ("title", .str "Data type"),
     ("type", .str "choice"),
     ("menu", .str "true"),
     ("values", .arr [.str "fc", .str "an"])]

/-- The fixed height-level selector appended to every layer, identical in
`resource_utils.py` (lines 370-378) and `create_forecast_layers.py`
(lines 106-112). -/
def levelVariable : Json :=
  .obj
    [("name", .str "level"),
     ("title", .str "Height level"),
     ("type", .str "choice"),
     ("menu", .str "true"),
     ("values", .arr [.str "key_0", .str "key_100", .str "key_1000",
       .str "key_3000", .str "key_5000"])]

/-- The textual unit cleanup of both `create_layer` variants
(`resource_utils.py` lines 292-299, `create_forecast_layers.py` line 64):
take the part after `netCDF:` when that marker is present and strip the
`<sup>` / `</sup>` markup tags. -/
def cleanUnits (u : String) : String :=
  if pyContains u "netCDF:" then
    pyReplace (pyReplace ((pySplit u "netCDF:").getLastD "") "<sup>" "") "</sup>" ""
  else
    pyReplace (pyReplace u "<sup>" "") "</sup>" ""

namespace ResourceUtils

/-- Embeds `create_package` from `resource_utils.py` (lines 28-41); the
template the source reads from the module-level `_PACKAGE_TEMPLATE` binding
is passed explicitly (the master script also passes it at the call site). -/
def create_package (package_name : String) (package_data : PackageData)
    (template : Json) : Except PyError Json :=
  (deepcopy template).update
    [("name", .str package_name),
     ("title", .str package_data.base_title),
     ("description", .str package_data.description)]

/-- Embeds `create_product` from `resource_utils.py` (lines 182-282); the
module-level product template is passed explicitly. The source writes the
record to `f"{package_dir}/{new_product['name']}.json"` and returns `None`;
the embedding returns the written path (built from the `name` field the
update just set) together with the record. -/
def create_product (input_vars : PyStrList) (var_config : VarConfig)
    (package_dir : String) (package_data : PackageData) (type_ : String)
    (group_name : String) (template : Json) : Except PyError (String × Json) := do
  let suffix := if package_data.flag = "eea" then "-eea" else ""
  let (var_list, product_type, product_name, product_title) ←
    match input_vars with
    | .strv s =>
        Except.ok ([s], "single",
          package_data.base_name ++ "-" ++ s ++ "-" ++ type_ ++ suffix,
          package_data.base_title ++ " " ++ generate_long_name s ++ " "
            ++ pyReplace type_ "-" " ")
    | .listv l =>
        if l.length > 1 then
          Except.ok (l, "grouped",
            package_data.base_name ++ "-" ++ type_ ++ "-" ++ group_name ++ suffix,
            package_data.base_title ++ " " ++ pyReplace type_ "-" " " ++ " of "
              ++ package_data.title)
        else Except.error (.valueError "Invalid input variable formatfor product creation.")
  let new_product := deepcopy template
  let new_product ← new_product.update
    [("name", .str product_name),
     ("title", .str product_title),
     ("package", .str package_data.package_name),
     ("description", .str package_data.description)]
  let cf ← create_click_features var_list var_config suffix
  let new_product ← new_product.setKey "click_features" cf
  let new_product ←
    if product_type = "grouped" then do
      let lnv ← create_layer_name_variable var_list var_config suffix
      new_product.appendAt "variables" lnv
    else Except.ok new_product
  let new_product ←
    if package_data.flag = "web" then do
      let mv ← create_models_variable var_config
      let p2 ← new_product.appendAt "variables" mv
      let hv ← create_height_variable package_data.levels
      p2.appendAt "variables" hv
    else Except.ok new_product
  Except.ok (package_dir ++ "/" ++ product_name ++ ".json", new_product)

/-- Embeds `create_layer` from `resource_utils.py` (lines 285-380); the
module-level layer template is passed explicitly. The style-list construction
inlined at lines 309-328 is `ForecastLayers.create_style_list`. -/
def create_layer (var_name : String) (var_config : VarConfig) (template : Json) :
    Except PyError Json := do
  let var_data ←
    match lookupS var_config.varMap var_name with
    | none => Except.error (.valueError ("No variable metadata found for '" ++ var_name ++ "'."))
    | some v => Except.ok v
  let unit := cleanUnits var_data.var_table_units
  let (short_name, short_name_with_spaces) := generate_short_names var_data.backend_api_name
  let long_name := generate_long_name var_name
  let style_list := ForecastLayers.create_style_list var_name short_name
  let new_layer := deepcopy template
  let new_layer ← new_layer.update
    [("description", .str ("European " ++ long_name ++ " ground- and upper-level forecast")),
     ("keywords", .str ("deterministic, air quality, " ++ short_name_with_spaces ++ ", "
       ++ long_name ++ ", surface concentrations")),
     ("name", .str ("composition_europe_" ++ short_name ++ "_forecast_surface")),
     ("title", .str ("Ground- and upper-level " ++ long_name ++ " (provided by CAMS)")),
     ("style", .str ("sh_" ++ short_name ++ "_web_surface_concentration")),
     ("styles", .arr (style_list.map .str)),
     ("units", .obj [("data", .str unit), ("display", .str unit)])]
  let constituent_type ←
    match var_data.grib_representations.getLast? with
    | some g => Except.ok g.constituentType
    | none => Except.error (.indexError "list index out of range")
  let new_layer ← new_layer.updatePath ["retrieve", "data"]
    [("constituentType", .str ("key_" ++ toString constituent_type)),
     ("expver", .str "5001")]
  let mv ← create_models_variable var_config
  let new_layer ← new_layer.appendAt "variables" mv
  let new_layer ← new_layer.appendAt "variables" streamVariable
  let new_layer ← new_layer.appendAt "variables" typeVariable
  let new_layer ← new_layer.appendAt "variables" levelVariable
  Except.ok new_layer

/-- The style-configuration value consumed by `create_style` of
`resource_utils.py`: it is subscripted both with `"variable"` (a variable
registry) and with the variant name. -/
structure RStyleConfig where
  varMap : List (String × VarData)
  variants : List (String × VariantSettings)
deriving Repr

/-- Embeds `create_style` from `resource_utils.py` (lines 383-429); the
module-level style template is passed explicitly. -/
def create_style (var_name : String) (style_config : RStyleConfig)
    (template : Json) (type_ : String) : Except PyError Json := do
  let var_data ←
    match lookupS style_config.varMap var_name with
    | none => Except.error (.valueError ("No variable metadata found for '" ++ var_name ++ "'."))
    | some v => Except.ok v
  let (short_name, _) := generate_short_names var_data.backend_api_name
  let vs ←
    match lookupS style_config.variants type_ with
    | some v => Except.ok v
    | none => Except.error (.keyError type_)
  let contour_list ←
    match lookupS vs.contour_levels var_name with
    | some l => Except.ok l
    | none => Except.error (.keyError var_name)
  let contour_level_list := joinWith "/" (contour_list.map (fun l => toString l))
  let contour_min ←
    match contour_list with
    | x :: _ => Except.ok x
    | [] => Except.error (.indexError "list index out of range")
  let contour_max ←
    match contour_list.getLast? with
    | some x => Except.ok x
    | none => Except.error (.indexError "list index out of range")
  let contour_shade_colour_list ←
    match lookupS vs.colours "common" with
    | some cl => Except.ok (joinWith "/" cl)
    | none =>
        match lookupS vs.colours var_name with
        | some cl => Except.ok (joinWith "/" cl)
        | none => Except.error (.keyError var_name)
  let new_style := deepcopy template
  let title := "Contour shade (Range: " ++ fmtF0 contour_min ++ " / " ++ fmtF0 contour_max
    ++ ", Multihue " ++ short_name ++ " " ++ type_ ++ ")"
  let new_style ← new_style.update
    [("title", .str title),
     ("name", .str ("sh_" ++ short_name ++ "_" ++ type_ ++ "_surface_concentration")),
     ("description", .str ("Method: contour shade\r\nLevel range : " ++ fmtF0 contour_min
       ++ " to " ++ fmtF0 contour_max ++ "\r\nColour    : Multihue " ++ short_name
       ++ " " ++ type_))]
  let new_style ← new_style.updatePath ["data", "contour"]
    [("contour_legend_text", .str title),
     ("contour_level_list", .str contour_level_list),
     ("contour_shade_colour_list", .str contour_shade_colour_list),
     ("contour_shade_min_level", .int contour_min)]
  Except.ok new_style

end ResourceUtils

namespace ForecastLayers

/-- Worker for `create_model_variable`: the `centre_subCentre` key of each
model, iterated in sorted name order (the ensemble is not fronted here,
unlike `ResourceUtils.create_models_variable`). -/
def modelKeys (models : List (String × ModelData)) :
    List String → Except PyError (List String)
  | [] => .ok []
  | m :: rest =>
      match lookupS models m with
      | none => .error (.keyError m)
      | some md =>
          match md.grib_representations with
          | [] => .error (.indexError "list index out of range")
          | cc :: _ =>
              match modelKeys models rest with
              | .ok ks => .ok ((toString cc.centre ++ "_" ++ toString cc.subCentre) :: ks)
              | .error e => .error e

/-- Embeds `create_model_variable` from `create_forecast_layers.py`
(lines 48-60). -/
def create_model_variable (config : VarConfig) : Except PyError Json :=
  match modelKeys config.model (sortStrings (config.model.map Prod.fst)) with
  | .error e => .error e
  | .ok ks =>
      .ok (.obj
        [("name", .str "originating_centre"),
         ("title", .str "Model"),
         ("type", .str "choice"),
         ("menu", .str "true"),
         ("values", .arr (ks.map .str))])

/-- Embeds `create_layer` from `create_forecast_layers.py` (lines 62-114).
Unlike the `resource_utils.py` variant it receives the variable record and
the template directly and performs no registry lookup. -/
def create_layer (var_name : String) (var_data : VarData) (template : Json)
    (config : VarConfig) : Except PyError Json := do
  let unit := cleanUnits var_data.var_table_units
  let (short_name, short_name_with_spaces) := generate_short_names var_data.backend_api_name
  let long_name := generate_long_name var_name
  let style_list := create_style_list var_name short_name
  let new_layer := deepcopy template
  let new_layer ← new_layer.update
    [("description", .str ("European " ++ long_name ++ " ground- and upper-level forecast")),
     ("keywords", .str ("deterministic, air quality, " ++ short_name_with_spaces ++ ", "
       ++ long_name ++ ", surface concentrations")),
     ("name", .str ("composition_europe_" ++ short_name ++ "_forecast_surface")),
     ("title", .str ("Ground- and upper-level " ++ long_name ++ " (provided by CAMS)")),
     ("style", .str ("sh_" ++ short_name ++ "_web_surface_concentration")),
     ("styles", .arr (style_list.map .str)),
     ("units", .obj [("data", .str unit), ("display", .str unit)])]
  let constituent_type ←
    match var_data.grib_representations.getLast? with
    | some g => Except.ok g.constituentType
    | none => Except.error (.indexError "list index out of range")
  let new_layer ← new_layer.updatePath ["retrieve", "data"]
    [("constituentType", .str ("key_" ++ toString constituent_type)),
     ("expver", .str "5001")]
  let mv ← create_model_variable config
  let new_layer ← new_layer.appendAt "variables" mv
  let new_layer ← new_layer.appendAt "variables" streamVariable
  let new_layer ← new_layer.appendAt "variables" typeVariable
  let new_layer ← new_layer.appendAt "variables" levelVariable
  Except.ok new_layer

/-- The body of the `main` loop of `create_forecast_layers.py` for one
non-hidden variable: build the layer and pair it with the output path
`f"{LAYERDIR}/{new_layer['name']}.json"`. -/
def buildLayerFile (config : VarConfig) (template : Json) (layerDir : String)
    (kv : String × VarData) : Except PyError (String × Json) := do
  let new_layer ← create_layer kv.1 kv.2 template config
  let name ←
    match new_layer.getE "name" with
    | .ok (.str s) => Except.ok s
    | .ok _ => Except.error (.typeError "str expected")
    | .error e => Except.error e
  Except.ok (layerDir ++ "/" ++ name ++ ".json", new_layer)

/-- Embeds the `main` loop of `create_forecast_layers.py` (lines 124-131):
each variable whose record's `hidden` attribute is truthy — or absent, since
`var_data.get("hidden", True)` defaults to `True` — is skipped; every other
variable produces one written layer file. -/
def layersLoop (config : VarConfig) (template : Json) (layerDir : String) :
    List (String × VarData) → Except PyError (List (String × Json))
  | [] => .ok []
  | kv :: rest =>
      if pyTruthy (kv.2.hidden.getD (Json.bool true)) then
        layersLoop config template layerDir rest
      else
        match buildLayerFile config template layerDir kv with
        | .error e => .error e
        | .ok out =>
            match layersLoop config template layerDir rest with
            | .ok outs => .ok (out :: outs)
            | .error e => .error e

end ForecastLayers

namespace ForecastStyles

/-- Embeds `create_style` from `create_forecast_styles.py` (lines 21-56):
the style configuration here is subscripted only with the variant name. -/
def create_style (parameter backend_api_name : String)
    (style_config : List (String × VariantSettings)) (template : Json)
    (type_ : String) : Except PyError Json := do
  let new_style := deepcopy template
  let (short_name, _) := generate_short_names backend_api_name
  let vs ←
    match lookupS style_config type_ with
    | some v => Except.ok v
    | none => Except.error (.keyError type_)
  let contour_list ←
    match lookupS vs.contour_levels parameter with
    | some l => Except.ok l
    | none => Except.error (.keyError parameter)
  let contour_level_list := joinWith "/" (contour_list.map (fun l => toString l))
  let contour_min ←
    match contour_list with
    | x :: _ => Except.ok x
    | [] => Except.error (.indexError "list index out of range")
  let contour_max ←
    match contour_list.getLast? with
    | some x => Except.ok x
    | none => Except.error (.indexError "list index out of range")
  let contour_shade_colour_list ←
    match lookupS vs.colours "common" with
    | some cl => Except.ok (joinWith "/" cl)
    | none =>
        match lookupS vs.colours parameter with
        | some cl => Except.ok (joinWith "/" cl)
        | none => Except.error (.keyError parameter)
  let title := "Contour shade (Range: " ++ fmtF0 contour_min ++ " / " ++ fmtF0 contour_max
    ++ ", Multihue " ++ short_name ++ " " ++ type_ ++ ")"
  let new_style ← new_style.update
    [("title", .str title),
     ("name", .str ("sh_" ++ short_name ++ "_" ++ type_ ++ "_surface_concentration")),
     ("description", .str ("Method: contour shade\r\nLevel range : " ++ fmtF0 contour_min
       ++ " to " ++ fmtF0 contour_max ++ "\r\nColour    : Multihue " ++ short_name
       ++ " " ++ type_))]
  let new_style ← new_style.updatePath ["data", "contour"]
    [("contour_legend_text", .str title),
     ("contour_level_list", .str contour_level_list),
     ("contour_shade_colour_list", .str contour_shade_colour_list),
     ("contour_shade_min_level", .int contour_min)]
  Except.ok new_style

end ForecastStyles

namespace GroupedProducts

/-- Embeds `create_product` from `create_grouped_products.py` (lines 60-114);
`PACKAGE` is the module constant `"cams_air_quality"`. The local
`create_models_variable` of that file (lines 33-58) is a textually identical
copy of `ResourceUtils.create_models_variable`, which is used here. -/
def create_product (var_name : String) (var_data : VarData) (template : Json)
    (var_config : VarConfig) (type_ : String) : Except PyError Json := do
  let (short_name, _) := generate_short_names var_data.backend_api_name
  let long_name := generate_long_name var_name
  let new_product := deepcopy template
  let layer_name := "composition_europe_" ++ short_name ++ "_forecast_surface"
  let new_product ← new_product.setKey "layers" (.arr
    [.obj [("class", .str "data"), ("layer_type", .str "eccharts"),
       ("name", .str layer_name),
       ("style", .str ("sh_" ++ short_name ++ "_" ++ type_ ++ "_surface_concentration"))],
     .obj [("class", .str "data"), ("layer_type", .str "eccharts"),
       ("name", .str "foreground"), ("style", .str "medium_res_foreground")],
     .obj [("class", .str "data"), ("layer_type", .str "eccharts"),
       ("name", .str "grid")],
     .obj [("class", .str "data"), ("layer_type", .str "eccharts"),
       ("name", .str "boundaries"), ("style", .str "black_boundaries")]])
  let new_product ← new_product.update
    [("name", .str ("europe-" ++ var_name ++ "-forecast")),
     ("title", .str ("European air quality " ++ long_name ++ " forecast")),
     ("package", .str "cams_air_quality"),
     ("description", .str ("CAMS European " ++ long_name ++ " forecast")),
     ("click_features", .obj
       [("options", .arr
          [.obj [("product", .str ("plume_cams_eu_" ++ var_name)),
                 ("title", .str ("Ground-level " ++ long_name ++ " concentrations"))]]),
        ("products", .arr [.str ("plume_cams_eu_" ++ var_name)]),
        ("tooltip", .str ("Ground-level " ++ long_name ++ " concentrations"))])]
  let mv ← ResourceUtils.create_models_variable var_config
  new_product.appendAt "variables" mv

/-- The body of the `main` loop of `create_grouped_products.py` for one
non-hidden variable: build the product and pair it with the output path
`f"{outdir}/{new_product['name']}-{type_}.json"`. -/
def buildProductFile (var_config : VarConfig) (template : Json) (type_ : String)
    (outdir : String) (kv : String × VarData) : Except PyError (String × Json) := do
  let new_product ← create_product kv.1 kv.2 template var_config type_
  let name ←
    match new_product.getE "name" with
    | .ok (.str s) => Except.ok s
    | .ok _ => Except.error (.typeError "str expected")
    | .error e => Except.error e
  Except.ok (outdir ++ "/" ++ name ++ "-" ++ type_ ++ ".json", new_product)

/-- Embeds the per-variant `main` loop of `create_grouped_products.py`
(lines 134-141): variables whose `hidden` attribute is truthy or absent
(`var_data.get("hidden", True)`) are skipped, all others produce one written
product file. -/
def productsLoop (var_config : VarConfig) (template : Json) (type_ : String)
    (outdir : String) : List (String × VarData) → Except PyError (List (String × Json))
  | [] => .ok []
  | kv :: rest =>
      if pyTruthy (kv.2.hidden.getD (Json.bool true)) then
        productsLoop var_config template type_ outdir rest
      else
        match buildProductFile var_config template type_ outdir kv with
        | .error e => .error e
        | .ok out =>
            match productsLoop var_config template type_ outdir rest with
            | .ok outs => .ok (out :: outs)
            | .error e => .error e

end GroupedProducts

namespace YamlProcessor

/-- The warning printed by `apply_defaults` for a malformed product entry. -/
def warnMsg (product_name product_type : String) : String :=
  "Warning: " ++ product_name ++ " in " ++ product_type ++ " is not a dictionary. Skipping."

/-- The merged-properties computation of `apply_defaults` (lines 26-38) for a
well-formed product entry: start from a copy of the parent properties, force
a `variables` key (the entry's own list when present, an empty list
otherwise), then overlay every property of the entry itself. -/
def mergeEntry (parent : List (String × Json)) (infoFs : List (String × Json)) :
    List (String × Json) :=
  let merged := parent
  let merged :=
    match lookupS infoFs "variables" with
    | some v => setF merged "variables" v
    | none => setF merged "variables" (.arr [])
  applyUpdates merged infoFs

/-- The inner loop of `apply_defaults` over the entries of one product type:
a non-dict entry produces the warning and is kept unchanged, a dict entry is
replaced by its merge with the parent properties. -/
def processEntries (parent : List (String × Json)) (product_type : String) :
    List (String × Json) → List (String × Json) × List String
  | [] => ([], [])
  | (product_name, product_info) :: rest =>
      let r := processEntries parent product_type rest
      match product_info with
      | .obj infoFs => ((product_name, .obj (mergeEntry parent infoFs)) :: r.1, r.2)
      | _ => ((product_name, product_info) :: r.1, warnMsg product_name product_type :: r.2)

/-- The outer loop of `apply_defaults` over the product types; iterating the
entries of a non-dict product-type value raises `AttributeError` as Python
`.items()` does. -/
def processTypes (parent : List (String × Json)) :
    List (String × Json) → Except PyError (List (String × Json) × List String)
  | [] => .ok ([], [])
  | (product_type, product_details) :: rest =>
      match product_details with
      | .obj entries =>
          match processTypes parent rest with
          | .ok rr =>
              .ok ((product_type, Json.obj (processEntries parent product_type entries).1) :: rr.1,
                (processEntries parent product_type entries).2 ++ rr.2)
          | .error e => .error e
      | _ => .error (.attributeError "items")

/-- Embeds `apply_defaults` from `yaml_processor.py` (lines 10-41). The
source mutates the package in place and prints the warnings; the embedding
returns the updated package together with the warnings printed. The parent
properties are every key of the package except `products`, computed once
before the loops. -/
def apply_defaults (package : Json) : Except PyError (Json × List String) :=
  match package with
  | .obj fs =>
      match package.getE "products" with
      | .ok (.obj ptypes) =>
          match processTypes (fs.filter (fun kv => kv.1 ≠ "products")) ptypes with
          | .ok r => .ok (.obj (setF fs "products" (.obj r.1)), r.2)
          | .error e => .error e
      | .ok _ => .error (.attributeError "items")
      | .error e => .error e
  | _ => .error (.typeError "object is not subscriptable")

end YamlProcessor

namespace CamsCreate

/-- Modelled from the spec: `create_grouped_product` is imported by
`create_cams_definitions.py` from `resource_utils.py` but is defined nowhere
under the sources. Per spec section 4.3 the grouped product builder copies
the template, keys the product by the group name and group title, derives
its layer/style references from the group's first listed variable
(representative-variable policy), attaches the fixed four-entry layer list,
and attaches the extra selector enumerating all member layer names (built
here with the in-source `ResourceUtils.create_layer_name_variable`). -/
def create_grouped_product (group_name : String) (group_data : GroupData)
    (template : Json) (var_config : VarConfig) (type_ : String) :
    Except PyError Json := do
  let first ←
    match group_data.varNames with
    | v :: _ => Except.ok v
    | [] => Except.error (.indexError "list index out of range")
  let var_data ←
    match lookupS var_config.varMap first with
    | some v => Except.ok v
    | none => Except.error (.valueError ("No variable metadata found for '" ++ first ++ "'."))
  let (short_name, _) := generate_short_names var_data.backend_api_name
  let new_product := deepcopy template
  let new_product ← new_product.update
    [("name", .str ("europe-" ++ type_ ++ "-" ++ group_name)),
     ("title", .str group_data.title)]
  let new_product ← new_product.setKey "layers" (.arr
    [.obj [("class", .str "data"), ("layer_type", .str "eccharts"),
       ("name", .str ("composition_europe_" ++ short_name ++ "_forecast_surface")),
       ("style", .str ("sh_" ++ short_name ++ "_" ++ type_ ++ "_surface_concentration"))],
     .obj [("class", .str "data"), ("layer_type", .str "eccharts"),
       ("name", .str "foreground"), ("style", .str "medium_res_foreground")],
     .obj [("class", .str "data"), ("layer_type", .str "eccharts"),
       ("name", .str "grid")],
     .obj [("class", .str "data"), ("layer_type", .str "eccharts"),
       ("name", .str "boundaries"), ("style", .str "black_boundaries")]])
  let lnv ← ResourceUtils.create_layer_name_variable group_data.varNames var_config ""
  new_product.appendAt "variables" lnv

/-- Modelled from the spec: the layer names a grouped product references —
the data layer of the group's first listed variable together with the
selector values enumerating every member's layer name, which is the set of
all member layer names. A missing variable raises the missing-metadata error
of the recording loop. -/
def groupLayerRefs (var_config : VarConfig) : List String → Except PyError (List String)
  | [] => .ok []
  | vn :: rest =>
      match lookupS var_config.varMap vn with
      | none => .error (.valueError ("No variable metadata found for '" ++ vn ++ "'."))
      | some vd =>
          let sn := (generate_short_names vd.backend_api_name).1
          match groupLayerRefs var_config rest with
          | .ok ls => .ok (("composition_europe_" ++ sn ++ "_forecast_surface") :: ls)
          | .error e => .error e

/-- Modelled from the spec: the style names a grouped product references —
only the style of the group's first listed variable (the data layer's style;
the layer-name selector carries no style references). -/
def groupStyleRefs (var_config : VarConfig) (type_ : String) :
    List String → Except PyError (List String)
  | [] => .ok []
  | vn :: _ =>
      match lookupS var_config.varMap vn with
      | none => .error (.valueError ("No variable metadata found for '" ++ vn ++ "'."))
      | some vd =>
          let sn := (generate_short_names vd.backend_api_name).1
          .ok [("sh_" ++ sn ++ "_" ++ type_ ++ "_surface_concentration")]

/-- One step of the recording loop of `process_package`
(`create_cams_definitions.py` lines 113-131): look the variable up, derive
its layer and style names, and add each to the corresponding
required-resources dict if not already present (`insertIfAbsent`). The last
visited variable name is threaded through because the Python loop variable
`var_name` stays bound after the loop and is (incorrectly) reused by the
build loops. -/
def insertIfAbsent (m : List (String × String)) (k v : String) :
    List (String × String) :=
  if (lookupS m k).isSome then m else m ++ [(k, v)]

/-- The recording loop of `process_package` over one group's variables. -/
def recordVars (package_name : String) (var_config : VarConfig) (type_ : String) :
    List String → Option String → List (String × String) → List (String × String) →
    Except PyError (Option String × List (String × String) × List (String × String))
  | [], stale, rl, rs => .ok (stale, rl, rs)
  | vn :: rest, _, rl, rs =>
      match lookupS var_config.varMap vn with
      | none =>
          .error (.valueError ("No variable data found for '" ++ vn ++ "' in package '"
            ++ package_name ++ "'."))
      | some vd =>
          let sn := (generate_short_names vd.backend_api_name).1
          let layer_name := "composition_europe_" ++ sn ++ "_forecast_surface"
          let style_name := "sh_" ++ sn ++ "_" ++ type_ ++ "_surface_concentration"
          recordVars package_name var_config type_ rest (some vn)
            (insertIfAbsent rl layer_name vd.backend_api_name)
            (insertIfAbsent rs style_name vd.backend_api_name)

end CamsCreate

/-- A structured output location: `main` of `create_cams_definitions.py`
fully clears and recreates the four output directories (`package/`,
`product/`, `layer/`, `style/`) under the base output directory on every
run; `other` stands for any path outside those four directories. Product
files live in a per-package subdirectory `f"{package_name}_{type_}"`. -/
inductive RPath where
  | package (file : String)
  | product (subdir : String) (file : String)
  | layer (file : String)
  | style (file : String)
  | other (p : String)
deriving Repr, DecidableEq

/-- The four JSON templates loaded by `main` and passed to
`process_package`. -/
structure Templates where
  package : Json
  product : Json
  layer : Json
  style : Json
deriving Repr

namespace CamsCreate

/-- Model of
`next((v for v in variables.values() if v["backend_api_name"] == bn), None)`:
the first variable record with the given backend name. -/
def findByBackend : List (String × VarData) → String → Option VarData
  | [], _ => none
  | (_, v) :: rest, bn =>
      if v.backend_api_name = bn then some v else findByBackend rest bn

/-- The grouped-products loop of `process_package`
(`create_cams_definitions.py` lines 103-138): for each group create and
write the product (to `f"{package_dir}/{new_product['name']}-{type_}.json"`,
modelled as `RPath.product package_sub file`), then record the required
layers and styles of all its member variables. -/
def processGroups (package_name : String) (var_config : VarConfig) (type_ : String)
    (product_template : Json) (package_sub : String) :
    List (String × GroupData) → Option String → List (String × String) →
    List (String × String) →
    Except PyError (List (RPath × Json) × Option String ×
      List (String × String) × List (String × String))
  | [], stale, rl, rs => .ok ([], stale, rl, rs)
  | (group_name, group_data) :: rest, stale, rl, rs =>
      match create_grouped_product group_name group_data product_template var_config type_ with
      | .error e => .error e
      | .ok new_product =>
          match new_product.getE "name" with
          | .ok (.str pname) =>
              match recordVars package_name var_config type_ group_data.varNames stale rl rs with
              | .error e => .error e
              | .ok (stale2, rl2, rs2) =>
                  match processGroups package_name var_config type_ product_template
                      package_sub rest stale2 rl2 rs2 with
                  | .error e => .error e
                  | .ok (outs, stale3, rl3, rs3) =>
                      .ok ((RPath.product package_sub (pname ++ "-" ++ type_ ++ ".json"),
                        new_product) :: outs, stale3, rl3, rs3)
          | .ok _ => .error (.typeError "str expected")
          | .error e => .error e

/-- The layer build loop of `process_package` (lines 140-151): for every
recorded `(layer_name, backend_api_name)` pair, find a variable record with
that backend name (raising the missing-metadata `ValueError` otherwise) and
write the built layer to `f"{LAYERDIR}/{layer_name}.json"`. Two slips of
the source are modelled faithfully: the call
`create_layer(var_name, var_data, templates["layer"], configs["var_config"])`
uses the loop variable `var_name` left over from the recording loop (threaded
here as `stale`; if it was never bound Python raises `NameError`), and that
four-argument call matches the signature of `create_layer` in
`create_forecast_layers.py` — the two-argument `resource_utils.py` function
the module imports would reject it — so the forecast-layers builder is the
one modelled at this call site. -/
def buildRequiredLayers (package_name : String) (var_config : VarConfig)
    (layer_template : Json) (stale : Option String) :
    List (String × String) → Except PyError (List (RPath × Json))
  | [] => .ok []
  | (layer_name, bn) :: rest =>
      match findByBackend var_config.varMap bn with
      | none =>
          .error (.valueError ("No variable data found for layer '" ++ layer_name
            ++ "' in package '" ++ package_name ++ "'."))
      | some var_data =>
          match stale with
          | none => .error (.nameError "name 'var_name' is not defined")
          | some var_name =>
              match ForecastLayers.create_layer var_name var_data layer_template var_config with
              | .error e => .error e
              | .ok new_layer =>
                  match buildRequiredLayers package_name var_config layer_template
                      stale rest with
                  | .ok outs =>
                      .ok ((RPath.layer (layer_name ++ ".json"), new_layer) :: outs)
                  | .error e => .error e

/-- The style build loop of `process_package` (lines 153-164), with the same
two modelled slips as the layer loop: the stale `var_name` is reused, and the
five-argument call
`create_style(var_name, var_data["backend_api_name"], configs["style_config"],
templates["style"], type_)` matches the signature of `create_style` in
`create_forecast_styles.py`, which is therefore the builder modelled here. -/
def buildRequiredStyles (package_name : String) (var_config : VarConfig)
    (style_config : List (String × VariantSettings)) (style_template : Json)
    (type_ : String) (stale : Option String) :
    List (String × String) → Except PyError (List (RPath × Json))
  | [] => .ok []
  | (style_name, bn) :: rest =>
      match findByBackend var_config.varMap bn with
      | none =>
          .error (.valueError ("No variable data found for style '" ++ style_name
            ++ "' in package '" ++ package_name ++ "'."))
      | some var_data =>
          match stale with
          | none => .error (.nameError "name 'var_name' is not defined")
          | some var_name =>
              match ForecastStyles.create_style var_name var_data.backend_api_name
                  style_config style_template type_ with
              | .error e => .error e
              | .ok new_style =>
                  match buildRequiredStyles package_name var_config style_config
                      style_template type_ stale rest with
                  | .ok outs =>
                      .ok ((RPath.style (style_name ++ ".json"), new_style) :: outs)
                  | .error e => .error e

/-- Embeds `process_package` from `create_cams_definitions.py`
(lines 44-166) as the list of files it writes: the package file, one product
file per group, then exactly the recorded layers and styles. The per-package
summary bookkeeping (consumed only by the reporting code, which the spec
places out of scope) is not modelled. -/
def process_package (package_name : String) (package_data : PackageData)
    (templates : Templates) (var_config : VarConfig)
    (style_config : List (String × VariantSettings)) (type_ : String) :
    Except PyError (List (RPath × Json)) :=
  match ResourceUtils.create_package package_name package_data templates.package with
  | .error e => .error e
  | .ok new_package =>
      match processGroups package_name var_config type_ templates.product
          (package_name ++ "_" ++ type_) package_data.grouped none [] [] with
      | .error e => .error e
      | .ok (prodOuts, stale, rl, rs) =>
          match buildRequiredLayers package_name var_config templates.layer stale rl with
          | .error e => .error e
          | .ok layerOuts =>
              match buildRequiredStyles package_name var_config style_config
                  templates.style type_ stale rs with
              | .error e => .error e
              | .ok styleOuts =>
                  .ok ((RPath.package (package_name ++ ".json"), new_package)
                    :: prodOuts ++ layerOuts ++ styleOuts)

/-- The configuration state of one run of `main`: the parsed package
configuration, the re-keyed variable/model configuration, the style
configuration and the four loaded templates. -/
structure RunConfig where
  packages : List (String × PackageData)
  var_config : VarConfig
  style_config : List (String × VariantSettings)
  templates : Templates

/-- The package loop of `main` (lines 193-198, with the variant list fixed
to `["web"]` as in the source): the files written by processing every
package in order. -/
def packagesLoop (templates : Templates) (var_config : VarConfig)
    (style_config : List (String × VariantSettings)) :
    List (String × PackageData) → Except PyError (List (RPath × Json))
  | [] => .ok []
  | (package_name, package_data) :: rest =>
      match process_package package_name package_data templates var_config
          style_config "web" with
      | .error e => .error e
      | .ok outs =>
          match packagesLoop templates var_config style_config rest with
          | .ok outs2 => .ok (outs ++ outs2)
          | .error e => .error e

/-- The files a successful run of `main` writes, each serialized by
`write_layer` (`json.dump` with sorted keys, modelled by `Json.ser`). -/
def runOutputs (cfg : RunConfig) : Except PyError (List (RPath × String)) :=
  match packagesLoop cfg.templates cfg.var_config cfg.style_config cfg.packages with
  | .ok outs => .ok (outs.map (fun pc => (pc.1, Json.ser pc.2)))
  | .error e => .error e

end CamsCreate

/-- A file system, as far as the generator observes it: a partial map from
structured paths to file contents. -/
def FileSys : Type := RPath → Option String

/-- The paths living under the four output directories that `main` clears
and rebuilds (`shutil.rmtree` followed by `mkdir` for `LAYERDIR`, `STYLEDIR`,
`PRODUCTDIR`, `PACKAGEDIR`, lines 188-191). -/
def isManaged : RPath → Bool
  | .other _ => false
  | _ => true

/-- The state of the file system after `main` cleared the four output
directories. -/
def clearManaged (fs : FileSys) : FileSys :=
  fun p => if isManaged p then none else fs p

/-- Write a list of files in order (`write_layer` truncates and rewrites). -/
def writeAll (outs : List (RPath × String)) (fs : FileSys) : FileSys :=
  outs.foldl (fun f pc => fun p => if p = pc.1 then some pc.2 else f p) fs

/-- One successful run of `main` over a starting file system: clear the four
output directories, then write every generated file. -/
def runOnce (outs : List (RPath × String)) (fs : FileSys) : FileSys :=
  writeAll outs (clearManaged fs)

/-- Read a value at a key path (composition of `d.get(k)` reads, used only in
theorem statements). -/
def Json.getPath? : Json → List String → Option Json
  | j, [] => some j
  | j, k :: rest =>
      match j.get? k with
      | some v => Json.getPath? v rest
      | none => none

/-- Whether a value is a dict (Python `isinstance(x, dict)`). -/
def Json.isObj : Json → Bool
  | .obj _ => true
  | _ => false

namespace ResourceUtils

/-- Call-state view of `create_layer`: the first component is the call's
result, the second the value of the caller's template binding after the call.
The source deep-copies the template into `new_layer` (line 330) before any
field is written, so no later write aliases the template and its value after
the call is the value passed in. -/
def create_layer_call (var_name : String) (var_config : VarConfig)
    (template : Json) : Except PyError Json × Json :=
  (create_layer var_name var_config template, template)

/-- Call-state view of `create_style` (deep copy at line 407): result paired
with the template value after the call. -/
def create_style_call (var_name : String) (style_config : RStyleConfig)
    (template : Json) (type_ : String) : Except PyError Json × Json :=
  (create_style var_name style_config template type_, template)

end ResourceUtils

namespace ForecastLayers

/-- Call-state view of `create_layer` of `create_forecast_layers.py` (deep
copy at line 71): result paired with the template value after the call. -/
def create_layer_call (var_name : String) (var_data : VarData) (template : Json)
    (config : VarConfig) : Except PyError Json × Json :=
  (create_layer var_name var_data template config, template)

end ForecastLayers

/-- Fixture: the `nitrogen_dioxide` variable record (backend `C_NO2_USI`,
explicitly not hidden). -/
def exNo2Data : VarData :=
  { backend_api_name := "C_NO2_USI"
    var_table_units := "µg/m<sup>3</sup>"
    grib_representations := [⟨5⟩]
    hidden := some (.bool false) }

/-- Fixture: the `ozone` variable record (backend `C_O3_USI`). -/
def exO3Data : VarData :=
  { backend_api_name := "C_O3_USI"
    var_table_units := "µg/m<sup>3</sup>"
    grib_representations := [⟨0⟩]
    hidden := some (.bool false) }

/-- Fixture: a variable/model configuration holding the two records above and
two models. -/
def exVarConfig : VarConfig :=
  { varMap := [("nitrogen_dioxide", exNo2Data), ("ozone", exO3Data)]
    model := [("ensemble", ⟨"Ensemble", [⟨85, 202⟩]⟩), ("chimere", ⟨"CHIMERE", [⟨85, 200⟩]⟩)] }

/-- Fixture: a variable/model configuration with an empty variable registry
(every variable lookup misses). -/
def emptyVarConfig : VarConfig :=
  { varMap := []
    model := [("ensemble", ⟨"Ensemble", [⟨85, 202⟩]⟩)] }

/-- Fixture: a minimal layer template with the `retrieve.data` block and the
`variables` list the builder writes into. -/
def exLayerTemplate : Json :=
  .obj [("retrieve", .obj [("data", .obj [])]), ("variables", .arr [])]

/-- Fixture: a minimal style template with the `data.contour` block the
builder writes into. -/
def exStyleTemplate : Json :=
  .obj [("data", .obj [("contour", .obj [])])]

/-- Fixture: a minimal product template with the `variables` list the builder
appends to. -/
def exProductTemplate : Json := .obj [("variables", .arr [])]

/-- Fixture: an empty package template. -/
def exPackageTemplate : Json := .obj []

/-- Fixture: the templates record assembled from the four templates above. -/
def exTemplates : Templates :=
  { package := exPackageTemplate
    product := exProductTemplate
    layer := exLayerTemplate
    style := exStyleTemplate }

/-- Fixture: the style list `create_style_list` produces for
`nitrogen_dioxide` / `no2`. -/
def exNo2Styles : List String :=
  ["sh_no2_web_surface_concentration",
   "sh_no2_aqi_surface_concentration",
   "sh_Reds_surface_concentration",
   "sh_Purples_surface_concentration",
   "sh_Greens_surface_concentration",
   "sh_Oranges_surface_concentration"]

/-- Fixture: contour/colour settings with levels `[0, 50, 100]` for parameter
`no2` and a shared colour list. -/
def exVariantSettings : VariantSettings :=
  { contour_levels := [("no2", [0, 50, 100])]
    colours := [("common", ["red", "blue"])] }

/-- Fixture: a style configuration holding the settings above under the `web`
variant. -/
def exStyleConfig : List (String × VariantSettings) := [("web", exVariantSettings)]

/-- Fixture: the combined style configuration consumed by
`ResourceUtils.create_style`, keying the `no2` parameter in both sections. -/
def exRStyleConfig : ResourceUtils.RStyleConfig :=
  { varMap := [("no2", exNo2Data)]
    variants := exStyleConfig }

/-- Fixture: the combined style configuration with an empty variable
registry. -/
def emptyRStyleConfig : ResourceUtils.RStyleConfig :=
  { varMap := []
    variants := exStyleConfig }

/-- Fixture: a package whose configured levels are plain `"surface"` and
whose flag is `web`. -/
def exPkgData : PackageData :=
  { package_name := "cams_air_quality"
    base_name := "europe"
    base_title := "European air quality"
    title := "air pollutants"
    description := "CAMS European forecasts"
    flag := "web"
    levels := .strv "surface"
    grouped := [("pollutants", ⟨"Air pollutants", ["nitrogen_dioxide", "ozone"]⟩)] }

namespace CamsCreate

/-- The recording phase of `process_package` in isolation: the fold of
`recordVars` over all groups of the package (the product files created
between the recording steps do not touch the required-resources dicts;
`processGroups` interleaves them and is proved consistent with this fold). -/
def recordAll (package_name : String) (var_config : VarConfig) (type_ : String) :
    List (String × GroupData) → Option String → List (String × String) →
    List (String × String) →
    Except PyError (Option String × List (String × String) × List (String × String))
  | [], stale, rl, rs => .ok (stale, rl, rs)
  | (_, g) :: rest, stale, rl, rs =>
      match recordVars package_name var_config type_ g.varNames stale rl rs with
      | .error e => .error e
      | .ok r => recordAll package_name var_config type_ rest r.1 r.2.1 r.2.2

/-- The layer names referenced by all of a package's grouped products
(union, in order, of `groupLayerRefs` over the groups). -/
def packageLayerRefs (var_config : VarConfig) :
    List (String × GroupData) → Except PyError (List String)
  | [] => .ok []
  | (_, g) :: rest =>
      match groupLayerRefs var_config g.varNames with
      | .error e => .error e
      | .ok ls =>
          match packageLayerRefs var_config rest with
          | .ok ls2 => .ok (ls ++ ls2)
          | .error e => .error e

/-- The style names referenced by all of a package's grouped products
(union, in order, of `groupStyleRefs` over the groups). -/
def packageStyleRefs (var_config : VarConfig) (type_ : String) :
    List (String × GroupData) → Except PyError (List String)
  | [] => .ok []
  | (_, g) :: rest =>
      match groupStyleRefs var_config type_ g.varNames with
      | .error e => .error e
      | .ok ss =>
          match packageStyleRefs var_config type_ rest with
          | .ok ss2 => .ok (ss ++ ss2)
          | .error e => .error e

/-- The style names of all member variables of one group, derived with the
same formulas as the recording loop (one style per member variable; this is
what the recording phase accumulates, as opposed to the first-member-only
`groupStyleRefs` that the products reference). -/
def memberStyleNames (var_config : VarConfig) (type_ : String) :
    List String → Except PyError (List String)
  | [] => .ok []
  | vn :: rest =>
      match lookupS var_config.varMap vn with
      | none => .error (.valueError ("No variable metadata found for '" ++ vn ++ "'."))
      | some vd =>
          let sn := (generate_short_names vd.backend_api_name).1
          match memberStyleNames var_config type_ rest with
          | .ok ss => .ok (("sh_" ++ sn ++ "_" ++ type_ ++ "_surface_concentration") :: ss)
          | .error e => .error e

end CamsCreate

/-- Fixture: one package grouping `nitrogen_dioxide` and `ozone` into a
single grouped product. -/
def exGroups : List (String × GroupData) :=
  [("pollutants", ⟨"Air pollutants", ["nitrogen_dioxide", "ozone"]⟩)]

/-- Fixture: the required-layers dict the recording loop accumulates over
`exGroups`. -/
def exRL : List (String × String) :=
  [("composition_europe_no2_forecast_surface", "C_NO2_USI"),
   ("composition_europe_o3_forecast_surface", "C_O3_USI")]

/-- Fixture: the required-styles dict the recording loop accumulates over
`exGroups` for the `web` variant. -/
def exRS : List (String × String) :=
  [("sh_no2_web_surface_concentration", "C_NO2_USI"),
   ("sh_o3_web_surface_concentration", "C_O3_USI")]

/-- Fixture: a style configuration under which the style build loop of
`process_package` succeeds on `exVarConfig` (the loop indexes the contour
levels with the stale loop variable, which is `ozone` here). -/
def exRunStyleConfig : List (String × VariantSettings) :=
  [("web", ⟨[("ozone", [0, 80, 160]), ("no2", [0, 50, 100])], [("common", ["red", "blue"])]⟩)]

/-- Fixture: a complete run configuration for `main`. -/
def exRunConfig : CamsCreate.RunConfig :=
  { packages := [("cams_air_quality", exPkgData)]
    var_config := exVarConfig
    style_config := exRunStyleConfig
    templates := exTemplates }

/-- Fixture: the outputs of the run on `exRunConfig` (a definition so that
witnesses can name the list without spelling out the serialized files). -/
def exRunOuts : List (RPath × String) :=
  match CamsCreate.runOutputs exRunConfig with
  | .ok outs => outs
  | .error _ => []

/-- Fixture: the empty file system. -/
def emptyFs : FileSys := fun _ => none

/-- Fixture: a variable record with no `hidden` attribute at all. -/
def exNoHiddenData : VarData :=
  { backend_api_name := "C_CO_USI"
    var_table_units := "µg/m<sup>3</sup>"
    grib_representations := [⟨4⟩]
    hidden := none }

/-- Fixture: a registry slice mixing an explicitly visible record, a record
with no `hidden` attribute and an explicitly hidden record. -/
def exHiddenVars : List (String × VarData) :=
  [("nitrogen_dioxide", exNo2Data),
   ("carbon_monoxide", exNoHiddenData),
   ("dust", { backend_api_name := "C_DUST_USI"
              var_table_units := "µg/m<sup>3</sup>"
              grib_representations := [⟨6⟩]
              hidden := some (.bool true) })]

/-- Fixture: a package dict for `apply_defaults` whose `single` section holds
a malformed (non-dict) product entry next to a well-formed one. -/
def exYamlPackage : Json :=
  .obj
    [("title", .str "Air quality"),
     ("flag", .str "web"),
     ("products", .obj
       [("single", .obj
          [("bad_entry", .str "oops"),
           ("good_entry", .obj [("variables", .arr [.str "ozone"])])]),
        ("grouped", .obj [])])]

/-- The member style names of all groups of a package (union, in order, of
`memberStyleNames` over the groups): one style name per member variable,
which is what the recording loop of `process_package` accumulates. -/
def CamsCreate.packageMemberStyleNames (var_config : VarConfig) (type_ : String) :
    List (String × GroupData) → Except PyError (List String)
  | [] => .ok []
  | (_, g) :: rest =>
      match CamsCreate.memberStyleNames var_config type_ g.varNames with
      | .error e => .error e
      | .ok ms =>
          match CamsCreate.packageMemberStyleNames var_config type_ rest with
          | .ok ms2 => .ok (ms ++ ms2)
          | .error e => .error e

/-- Map a fallible function over a list, stopping at the first error (the
shape of every sequential build loop in these scripts). -/
def exceptMapList {α β : Type} (f : α → Except PyError β) : List α → Except PyError (List β)
  | [] => .ok []
  | x :: rest =>
      match f x with
      | .error e => .error e
      | .ok y =>
          match exceptMapList f rest with
          | .ok ys => .ok (y :: ys)
          | .error e => .error e

/-- C2: `generate_short_names` agrees with the spec's reference definition on
every backend identifier string; in particular `"C_NO2_USI"` yields short
name `no2` with spaced form `no2` (no underscore), and the PM2.5-style
identifier `"C_PM25_USI"` yields `pm2p5` in both components. -/
theorem generate_short_names_spec_equiv :
    (∀ s : String, generate_short_names s = specShortNames s) ∧
    generate_short_names "C_NO2_USI" = ("no2", "no2") ∧
    generate_short_names "C_PM25_USI" = ("pm2p5", "pm2p5") :=
  ⟨fun _ => rfl, by decide, by decide⟩

/-- C3: on a registry holding the `nitrogen_dioxide` record (backend
`C_NO2_USI`, hidden = false), the layer builder of `resource_utils.py`
produces a layer named `composition_europe_no2_forecast_surface` whose
`styles` list contains both `sh_no2_web_surface_concentration` and
`sh_no2_aqi_surface_concentration` (nitrogen dioxide is AQI-eligible);
`create_style_list` of `create_forecast_layers.py` yields the same list. -/
theorem create_layer_no2_name_and_styles :
    ∃ l, ResourceUtils.create_layer "nitrogen_dioxide" exVarConfig exLayerTemplate = .ok l ∧
      l.get? "name" = some (.str "composition_europe_no2_forecast_surface") ∧
      l.get? "styles" = some (.arr (exNo2Styles.map .str)) ∧
      "sh_no2_web_surface_concentration" ∈ exNo2Styles ∧
      "sh_no2_aqi_surface_concentration" ∈ exNo2Styles ∧
      ForecastLayers.create_style_list "nitrogen_dioxide" "no2" = exNo2Styles ∧
      (generate_short_names "C_NO2_USI").1 = "no2" ∧
      exNo2Data.hidden = some (.bool false) ∧
      pyTruthy ((some (Json.bool false)).getD (Json.bool true)) = false := by
  refine ⟨_, rfl, rfl, rfl, by decide, by decide, by decide, by decide, rfl, rfl⟩

/-- C4: with contour levels `[0, 50, 100]` for variant `web` and parameter
`no2`, the style builder of `create_forecast_styles.py` produces a style
whose legend title embeds `Range: 0 / 100` (min and max rendered as
integers) and writes the same title, level list, colour list and minimum
level into the nested `data.contour` block; the `resource_utils.py` variant
produces the same four nested values. -/
theorem create_style_no2_range_title :
    ∃ s, ForecastStyles.create_style "no2" "C_NO2_USI" exStyleConfig exStyleTemplate "web"
        = .ok s ∧
      s.get? "title" = some (.str "Contour shade (Range: 0 / 100, Multihue no2 web)") ∧
      pyContains "Contour shade (Range: 0 / 100, Multihue no2 web)" "Range: 0 / 100" = true ∧
      s.getPath? ["data", "contour", "contour_legend_text"]
        = some (.str "Contour shade (Range: 0 / 100, Multihue no2 web)") ∧
      s.getPath? ["data", "contour", "contour_level_list"] = some (.str "0/50/100") ∧
      s.getPath? ["data", "contour", "contour_shade_colour_list"] = some (.str "red/blue") ∧
      s.getPath? ["data", "contour", "contour_shade_min_level"] = some (.int 0) ∧
      ∃ s2, ResourceUtils.create_style "no2" exRStyleConfig exStyleTemplate "web" = .ok s2 ∧
        s2.get? "title" = some (.str "Contour shade (Range: 0 / 100, Multihue no2 web)") ∧
        s2.getPath? ["data", "contour", "contour_legend_text"]
          = some (.str "Contour shade (Range: 0 / 100, Multihue no2 web)") ∧
        s2.getPath? ["data", "contour", "contour_level_list"] = some (.str "0/50/100") ∧
        s2.getPath? ["data", "contour", "contour_shade_colour_list"] = some (.str "red/blue") ∧
        s2.getPath? ["data", "contour", "contour_shade_min_level"] = some (.int 0) := by
  refine ⟨_, rfl, rfl, by decide, rfl, rfl, rfl, rfl, _, rfl, rfl, rfl, rfl, rfl, rfl⟩

/-- C5: a registry miss makes `create_layer`, `create_style` and
`create_click_features` of `resource_utils.py` raise the missing-metadata
`ValueError` naming the missing variable, and a populated registry raises no
such error; but the helper `create_layer_name_variable` (lines 95-116)
subscripts the `None` returned by `.get` without a check, so the same miss
raises `TypeError` with no variable name in it — the code slip the claim's
uniformity statement runs into. -/
theorem missing_variable_error_behaviour :
    ResourceUtils.create_layer "nitrogen_dioxide" emptyVarConfig exLayerTemplate
      = .error (.valueError "No variable metadata found for 'nitrogen_dioxide'.") ∧
    ResourceUtils.create_style "no2" emptyRStyleConfig exStyleTemplate "web"
      = .error (.valueError "No variable metadata found for 'no2'.") ∧
    ResourceUtils.create_click_features ["nitrogen_dioxide"] emptyVarConfig ""
      = .error (.valueError "No variable metadata found for 'nitrogen_dioxide'.") ∧
    ResourceUtils.create_click_features ["nitrogen_dioxide", "ozone"] emptyVarConfig ""
      = .error (.valueError "No variable metadata found for 'nitrogen_dioxide'.") ∧
    ResourceUtils.create_layer_name_variable ["nitrogen_dioxide"] emptyVarConfig ""
      = .error (.typeError "'NoneType' object is not subscriptable") ∧
    (∃ l, ResourceUtils.create_layer "nitrogen_dioxide" exVarConfig exLayerTemplate = .ok l) ∧
    (∃ s, ResourceUtils.create_style "no2" exRStyleConfig exStyleTemplate "web" = .ok s) ∧
    (∃ c, ResourceUtils.create_click_features ["nitrogen_dioxide", "ozone"] exVarConfig ""
      = .ok c) ∧
    (∃ v, ResourceUtils.create_layer_name_variable ["nitrogen_dioxide", "ozone"] exVarConfig ""
      = .ok v) := by
  exact ⟨rfl, rfl, rfl, rfl, rfl, ⟨_, rfl⟩, ⟨_, rfl⟩, ⟨_, rfl⟩, ⟨_, rfl⟩⟩

/-- C10: `create_height_variable` returns Python `None` both for `"surface"`
and for `["surface"]`, and for a `web`-flagged package the product builder
appends that `None` verbatim, so the generated product's `variables` list
ends in a null entry instead of omitting the height selector. -/
theorem height_variable_null_appended :
    ResourceUtils.create_height_variable (.strv "surface") = .ok .null ∧
    ResourceUtils.create_height_variable (.listv ["surface"]) = .ok .null ∧
    ∃ p j vars,
      ResourceUtils.create_product (.strv "nitrogen_dioxide") exVarConfig "dir" exPkgData
        "web" "" exProductTemplate = .ok (p, j) ∧
      j.get? "variables" = some (.arr vars) ∧
      vars.getLast? = some .null := by
  refine ⟨rfl, rfl, _, _, _, rfl, rfl, rfl⟩

/-- C6: the builders cited by the claim never mutate the template they are
given: each deep-copies it before any field write, so the template value
observable after the call is the value passed in, and reusing that value for
a second invocation yields an identical result. -/
theorem builders_preserve_template :
    ∀ (vn : String) (cfg : VarConfig) (vd : VarData) (sc : ResourceUtils.RStyleConfig)
      (t : Json) (ty : String),
      (ResourceUtils.create_layer_call vn cfg t).2 = t ∧
      ResourceUtils.create_layer vn cfg (ResourceUtils.create_layer_call vn cfg t).2
        = ResourceUtils.create_layer vn cfg t ∧
      (ResourceUtils.create_style_call vn sc t ty).2 = t ∧
      ResourceUtils.create_style vn sc (ResourceUtils.create_style_call vn sc t ty).2 ty
        = ResourceUtils.create_style vn sc t ty ∧
      (ForecastLayers.create_layer_call vn vd t cfg).2 = t ∧
      ForecastLayers.create_layer vn vd (ForecastLayers.create_layer_call vn vd t cfg).2 cfg
        = ForecastLayers.create_layer vn vd t cfg :=
  fun _ _ _ _ _ _ => ⟨rfl, rfl, rfl, rfl, rfl, rfl⟩

/-- Setting a key makes it readable: `lookupS (setF fs k v) k = some v`. -/
theorem lookupS_setF_self : ∀ (fs : List (String × Json)) (k : String) (v : Json),
    lookupS (setF fs k v) k = some v := by
  intro fs k v
  induction fs with
  | nil => simp [setF, lookupS]
  | cons kv rest ih =>
      by_cases h : kv.1 = k
      · cases kv
        simp_all [setF, lookupS]
      · cases kv
        simp_all [setF, lookupS]

/-- A malformed entry survives `processEntries` unchanged and leaves its
warning behind. -/
theorem processEntries_malformed (parent : List (String × Json)) (ptype : String) :
    ∀ (entries : List (String × Json)) (pname : String) (e : Json),
      lookupS entries pname = some e → e.isObj = false →
      lookupS (YamlProcessor.processEntries parent ptype entries).1 pname = some e ∧
      YamlProcessor.warnMsg pname ptype ∈ (YamlProcessor.processEntries parent ptype entries).2 := by
  intro entries
  induction entries with
  | nil => intro pname e h; simp [lookupS] at h
  | cons kv rest ih =>
      intro pname e hlook hobj
      obtain ⟨pn, pi⟩ := kv
      by_cases h : pn = pname
      · subst h
        simp [lookupS] at hlook
        subst hlook
        cases pi <;> simp_all [YamlProcessor.processEntries, Json.isObj, lookupS]
      · have hlook2 : lookupS rest pname = some e := by
          simpa [lookupS, h] using hlook
        have ihr := ih pname e hlook2 hobj
        cases pi <;> simp_all [YamlProcessor.processEntries, lookupS, h]

/-- When every product-type value is a dict, `processTypes` succeeds. -/
theorem processTypes_ok (parent : List (String × Json)) :
    ∀ ptypes : List (String × Json), ptypes.all (fun kv => kv.2.isObj) = true →
      ∃ res, YamlProcessor.processTypes parent ptypes = .ok res := by
  intro ptypes
  induction ptypes with
  | nil => intro _; exact ⟨_, rfl⟩
  | cons kv rest ih =>
      intro hall
      rw [List.all_cons, Bool.and_eq_true] at hall
      obtain ⟨res, hres⟩ := ih hall.2
      obtain ⟨pt, pd⟩ := kv
      cases pd with
      | obj es =>
          refine ⟨((pt, Json.obj (YamlProcessor.processEntries parent pt es).1) :: res.1,
            (YamlProcessor.processEntries parent pt es).2 ++ res.2), ?_⟩
          simp [YamlProcessor.processTypes, hres]
      | null => simp [Json.isObj] at hall
      | bool b => simp [Json.isObj] at hall
      | int n => simp [Json.isObj] at hall
      | str s => simp [Json.isObj] at hall
      | arr xs => simp [Json.isObj] at hall

/-- The product type found in the input is found in the output of
`processTypes`, transformed by `processEntries`, and its warnings are among
the warnings returned. -/
theorem processTypes_found (parent : List (String × Json)) :
    ∀ (ptypes : List (String × Json)) (ptype : String) (entries : List (String × Json)),
      lookupS ptypes ptype = some (.obj entries) →
      ptypes.all (fun kv => kv.2.isObj) = true →
      ∃ res, YamlProcessor.processTypes parent ptypes = .ok res ∧
        lookupS res.1 ptype
          = some (.obj (YamlProcessor.processEntries parent ptype entries).1) ∧
        ∀ w ∈ (YamlProcessor.processEntries parent ptype entries).2, w ∈ res.2 := by
  intro ptypes
  induction ptypes with
  | nil => intro ptype entries h; simp [lookupS] at h
  | cons kv rest ih =>
      intro ptype entries hlook hall
      rw [List.all_cons, Bool.and_eq_true] at hall
      obtain ⟨pt, pd⟩ := kv
      by_cases h : pt = ptype
      · subst h
        simp [lookupS] at hlook
        subst hlook
        obtain ⟨res, hres⟩ := processTypes_ok parent rest hall.2
        refine ⟨((pt, Json.obj (YamlProcessor.processEntries parent pt entries).1) :: res.1,
          (YamlProcessor.processEntries parent pt entries).2 ++ res.2),
          by simp [YamlProcessor.processTypes, hres], ?_, ?_⟩
        · simp [lookupS]
        · intro w hw
          simp
          exact Or.inl hw
      · have hlook2 : lookupS rest ptype = some (.obj entries) := by
          simpa [lookupS, h] using hlook
        obtain ⟨res, hres, hfound, hws⟩ := ih ptype entries hlook2 hall.2
        cases pd with
        | obj es =>
            refine ⟨((pt, Json.obj (YamlProcessor.processEntries parent pt es).1) :: res.1,
              (YamlProcessor.processEntries parent pt es).2 ++ res.2),
              by simp [YamlProcessor.processTypes, hres], ?_, ?_⟩
            · simp [lookupS, h, hfound]
            · intro w hw
              simp
              exact Or.inr (hws w hw)
        | null => simp [Json.isObj] at hall
        | bool b => simp [Json.isObj] at hall
        | int n => simp [Json.isObj] at hall
        | str s => simp [Json.isObj] at hall
        | arr xs => simp [Json.isObj] at hall

/-- C8: a malformed (non-dict) product entry makes `apply_defaults` emit the
warning for that entry, keep the entry unchanged in the result, and finish
without raising, continuing over the remaining entries. -/
theorem apply_defaults_skips_malformed :
    ∀ (fs ptypes entries : List (String × Json)) (ptype pname : String) (e : Json),
      lookupS fs "products" = some (.obj ptypes) →
      ptypes.all (fun kv => kv.2.isObj) = true →
      lookupS ptypes ptype = some (.obj entries) →
      lookupS entries pname = some e →
      e.isObj = false →
      ∃ res, YamlProcessor.apply_defaults (.obj fs) = .ok res ∧
        res.1.getPath? ["products", ptype, pname] = some e ∧
        YamlProcessor.warnMsg pname ptype ∈ res.2 := by
  intro fs ptypes entries ptype pname e hprod hall hptype hentry hobj
  have parent := fs.filter (fun kv => kv.1 ≠ "products")
  obtain ⟨res, hres, hfound, hws⟩ :=
    processTypes_found (fs.filter (fun kv => kv.1 ≠ "products")) ptypes ptype entries hptype hall
  obtain ⟨hkeep, hwarn⟩ :=
    processEntries_malformed (fs.filter (fun kv => kv.1 ≠ "products")) ptype entries
      pname e hentry hobj
  refine ⟨(.obj (setF fs "products" (.obj res.1)), res.2), ?_, ?_, hws _ hwarn⟩
  · simp only [YamlProcessor.apply_defaults, Json.getE, hprod, hres]
  · simp only [Json.getPath?, Json.get?, lookupS_setF_self, hfound, hkeep]

/-- Witness for `apply_defaults_skips_malformed`: the fixture package whose
`single` section holds the non-dict entry `bad_entry`. -/
theorem apply_defaults_skips_malformed_witness :
    Json.isObj (Json.str "oops") = false ∧
    ∃ res, YamlProcessor.apply_defaults exYamlPackage = .ok res ∧
      res.1.getPath? ["products", "single", "bad_entry"] = some (.str "oops") ∧
      YamlProcessor.warnMsg "bad_entry" "single" ∈ res.2 :=
  ⟨rfl,
    apply_defaults_skips_malformed
      [("title", .str "Air quality"), ("flag", .str "web"),
       ("products", .obj
         [("single", .obj
            [("bad_entry", .str "oops"),
             ("good_entry", .obj [("variables", .arr [.str "ozone"])])]),
          ("grouped", .obj [])])]
      [("single", .obj
         [("bad_entry", .str "oops"),
          ("good_entry", .obj [("variables", .arr [.str "ozone"])])]),
       ("grouped", .obj [])]
      [("bad_entry", .str "oops"),
       ("good_entry", .obj [("variables", .arr [.str "ozone"])])]
      "single" "bad_entry" (.str "oops") rfl rfl rfl rfl rfl⟩

/-- The hidden-variable predicate the generation loops test:
`var_data.get("hidden", True)` is truthy. -/
def hiddenPred (kv : String × VarData) : Bool :=
  !pyTruthy (kv.2.hidden.getD (Json.bool true))

/-- The layers loop equals mapping the builder over the explicitly filtered
(non-hidden) variables. -/
theorem layersLoop_eq_filter_mapM :
    ∀ (cfg : VarConfig) (t : Json) (d : String) (vars : List (String × VarData)),
      ForecastLayers.layersLoop cfg t d vars
        = exceptMapList (ForecastLayers.buildLayerFile cfg t d) (vars.filter hiddenPred) := by
  intro cfg t d vars
  induction vars with
  | nil => simp [ForecastLayers.layersLoop, exceptMapList]
  | cons kv rest ih =>
      by_cases h : pyTruthy (kv.2.hidden.getD (Json.bool true))
      · simp [ForecastLayers.layersLoop, h, List.filter_cons, hiddenPred, ih]
      · rw [ForecastLayers.layersLoop, List.filter_cons]
        simp only [hiddenPred, h, Bool.not_false, if_pos, if_neg, Bool.not_eq_true]
        rw [exceptMapList, ih]
        cases hb : ForecastLayers.buildLayerFile cfg t d kv with
        | error e => simp [hb]
        | ok out =>
            cases hr : exceptMapList (ForecastLayers.buildLayerFile cfg t d)
                (List.filter hiddenPred rest) with
            | error e => simp [hb, hr]
            | ok outs => simp [hb, hr]

/-- The grouped-products loop equals mapping the builder over the explicitly
filtered (non-hidden) variables. -/
theorem productsLoop_eq_filter_mapM :
    ∀ (cfg : VarConfig) (t : Json) (ty d : String) (vars : List (String × VarData)),
      GroupedProducts.productsLoop cfg t ty d vars
        = exceptMapList (GroupedProducts.buildProductFile cfg t ty d) (vars.filter hiddenPred) := by
  intro cfg t ty d vars
  induction vars with
  | nil => simp [GroupedProducts.productsLoop, exceptMapList]
  | cons kv rest ih =>
      by_cases h : pyTruthy (kv.2.hidden.getD (Json.bool true))
      · simp [GroupedProducts.productsLoop, h, List.filter_cons, hiddenPred, ih]
      · rw [GroupedProducts.productsLoop, List.filter_cons]
        simp only [hiddenPred, h, Bool.not_false, if_pos, if_neg, Bool.not_eq_true]
        rw [exceptMapList, ih]
        cases hb : GroupedProducts.buildProductFile cfg t ty d kv with
        | error e => simp [hb]
        | ok out =>
            cases hr : exceptMapList (GroupedProducts.buildProductFile cfg t ty d)
                (List.filter hiddenPred rest) with
            | error e => simp [hb, hr]
            | ok outs => simp [hb, hr]

/-- C9: both generation loops process exactly the variables passing the
`hidden` filter; a record with no `hidden` attribute defaults to hidden and
is skipped, and a variable is processed iff its record carries an explicit
falsy `hidden` value. -/
theorem hidden_flag_gating :
    ∀ (cfg : VarConfig) (t : Json) (d ty : String) (vars : List (String × VarData)),
      ForecastLayers.layersLoop cfg t d vars
        = exceptMapList (ForecastLayers.buildLayerFile cfg t d) (vars.filter hiddenPred) ∧
      GroupedProducts.productsLoop cfg t ty d vars
        = exceptMapList (GroupedProducts.buildProductFile cfg t ty d) (vars.filter hiddenPred) ∧
      (∀ (vn : String) (vd : VarData), vd.hidden = none →
        (vn, vd) ∈ vars.filter hiddenPred → False) ∧
      (∀ (vn : String) (vd : VarData), (vn, vd) ∈ vars.filter hiddenPred ↔
        ((vn, vd) ∈ vars ∧ ∃ h, vd.hidden = some h ∧ pyTruthy h = false)) := by
  intro cfg t d ty vars
  refine ⟨layersLoop_eq_filter_mapM cfg t d vars,
    productsLoop_eq_filter_mapM cfg t ty d vars, ?_, ?_⟩
  · intro vn vd hnone hmem
    rw [List.mem_filter] at hmem
    simp [hiddenPred, hnone, pyTruthy] at hmem
  · intro vn vd
    rw [List.mem_filter]
    cases hv : vd.hidden with
    | none => simp [hiddenPred, hv, pyTruthy]
    | some h => simp [hiddenPred, hv]

/-- Witness for `hidden_flag_gating`: the record with no `hidden` attribute
in the fixture registry slice is skipped, and the layers loop on that slice
is the filtered mapM. -/
theorem hidden_flag_gating_witness :
    exNoHiddenData.hidden = none ∧
    (("carbon_monoxide", exNoHiddenData) ∈ exHiddenVars.filter hiddenPred → False) ∧
    ForecastLayers.layersLoop exVarConfig exLayerTemplate "layers" exHiddenVars
      = (exHiddenVars.filter hiddenPred).mapM
          (ForecastLayers.buildLayerFile exVarConfig exLayerTemplate "layers") :=
  ⟨rfl,
    (hidden_flag_gating exVarConfig exLayerTemplate "layers" "web" exHiddenVars).2.2.1
      "carbon_monoxide" exNoHiddenData rfl,
    (hidden_flag_gating exVarConfig exLayerTemplate "layers" "web" exHiddenVars).1⟩

/-- A successful lookup exhibits a member of the association list. -/
theorem lookupS_mem {α : Type} : ∀ (m : List (String × α)) (k : String) (v : α),
    lookupS m k = some v → (k, v) ∈ m := by
  intro m k v
  induction m with
  | nil => intro h; simp [lookupS] at h
  | cons kv rest ih =>
      intro h
      obtain ⟨k1, v1⟩ := kv
      by_cases hk : k1 = k
      · subst hk
        simp [lookupS] at h
        subst h
        exact List.mem_cons_self _ _
      · rw [lookupS, if_neg hk] at h
        exact List.mem_cons_of_mem _ (ih h)

/-- A lookup succeeds exactly on the recorded keys. -/
theorem lookupS_isSome_iff {α : Type} : ∀ (m : List (String × α)) (k : String),
    (lookupS m k).isSome = true ↔ k ∈ m.map Prod.fst := by
  intro m k
  induction m with
  | nil => simp [lookupS]
  | cons kv rest ih =>
      obtain ⟨k1, v1⟩ := kv
      by_cases hk : k1 = k
      · subst hk
        simp [lookupS]
      · rw [lookupS, if_neg hk]
        simp only [List.map_cons, List.mem_cons]
        rw [ih]
        constructor
        · exact fun h => Or.inr h
        · rintro (h | h)
          · exact absurd h.symm hk
          · exact h

/-- The keys after `insertIfAbsent` are the old keys plus the inserted key. -/
theorem insertIfAbsent_keys : ∀ (m : List (String × String)) (k v n : String),
    (n ∈ (CamsCreate.insertIfAbsent m k v).map Prod.fst) ↔
      (n ∈ m.map Prod.fst ∨ n = k) := by
  intro m k v n
  rw [CamsCreate.insertIfAbsent]
  by_cases h : (lookupS m k).isSome = true
  · rw [if_pos h]
    rw [lookupS_isSome_iff] at h
    constructor
    · exact Or.inl
    · rintro (hn | hn)
      · exact hn
      · exact hn ▸ h
  · rw [if_neg h]
    simp

/-- Every pair after `insertIfAbsent` is an old pair or the inserted pair. -/
theorem insertIfAbsent_values : ∀ (m : List (String × String)) (k v : String)
    (kv : String × String), kv ∈ CamsCreate.insertIfAbsent m k v →
      kv ∈ m ∨ kv = (k, v) := by
  intro m k v kv h
  rw [CamsCreate.insertIfAbsent] at h
  by_cases hs : (lookupS m k).isSome = true
  · rw [if_pos hs] at h
    exact Or.inl h
  · rw [if_neg hs] at h
    rw [List.mem_append] at h
    rcases h with h | h
    · exact Or.inl h
    · simp at h
      exact Or.inr (by simp [h])

/-- The recording loop over one group's variables: it succeeds exactly when
the reference derivations succeed, the accumulated layer keys are the old
keys plus all member layer names, the accumulated style keys are the old
keys plus all member style names, and every accumulated value is an old
value or a backend name from the registry. -/
theorem recordVars_spec : ∀ (pn : String) (cfg : VarConfig) (ty : String)
    (vars : List String) (stale st2 : Option String) (rl rs rl2 rs2 : List (String × String)),
    CamsCreate.recordVars pn cfg ty vars stale rl rs = .ok (st2, rl2, rs2) →
    ∃ ls ms, CamsCreate.groupLayerRefs cfg vars = .ok ls ∧
      CamsCreate.memberStyleNames cfg ty vars = .ok ms ∧
      (∀ n, n ∈ rl2.map Prod.fst ↔ (n ∈ rl.map Prod.fst ∨ n ∈ ls)) ∧
      (∀ n, n ∈ rs2.map Prod.fst ↔ (n ∈ rs.map Prod.fst ∨ n ∈ ms)) ∧
      (∀ kv, kv ∈ rl2 → kv ∈ rl ∨ ∃ p, p ∈ cfg.varMap ∧ p.2.backend_api_name = kv.2) ∧
      (∀ kv, kv ∈ rs2 → kv ∈ rs ∨ ∃ p, p ∈ cfg.varMap ∧ p.2.backend_api_name = kv.2) := by
  intro pn cfg ty vars
  induction vars with
  | nil =>
      intro stale st2 rl rs rl2 rs2 h
      rw [CamsCreate.recordVars] at h
      injection h with h
      injection h with h1 h
      injection h with h2 h3
      subst h2; subst h3
      exact ⟨[], [], rfl, rfl, by simp, by simp, fun kv hk => Or.inl hk, fun kv hk => Or.inl hk⟩
  | cons vn rest ih =>
      intro stale st2 rl rs rl2 rs2 h
      rw [CamsCreate.recordVars] at h
      cases hl : lookupS cfg.varMap vn with
      | none => rw [hl] at h; exact absurd h (by simp)
      | some vd =>
          rw [hl] at h
          obtain ⟨ls', ms', hls', hms', hiffL, hiffS, hvalL, hvalS⟩ :=
            ih (some vn) st2 _ _ rl2 rs2 h
          refine ⟨("composition_europe_" ++ (generate_short_names vd.backend_api_name).1
              ++ "_forecast_surface") :: ls',
            ("sh_" ++ (generate_short_names vd.backend_api_name).1 ++ "_" ++ ty
              ++ "_surface_concentration") :: ms', ?_, ?_, ?_, ?_, ?_, ?_⟩
          · rw [CamsCreate.groupLayerRefs, hl, hls']
          · rw [CamsCreate.memberStyleNames, hl, hms']
          · intro n
            rw [hiffL n, insertIfAbsent_keys]
            simp
            tauto
          · intro n
            rw [hiffS n, insertIfAbsent_keys]
            simp
            tauto
          · intro kv hk
            rcases hvalL kv hk with hk2 | hk2
            · rcases insertIfAbsent_values _ _ _ _ hk2 with hk3 | hk3
              · exact Or.inl hk3
              · exact Or.inr ⟨(vn, vd), lookupS_mem _ _ _ hl, by rw [hk3]⟩
            · exact Or.inr hk2
          · intro kv hk
            rcases hvalS kv hk with hk2 | hk2
            · rcases insertIfAbsent_values _ _ _ _ hk2 with hk3 | hk3
              · exact Or.inl hk3
              · exact Or.inr ⟨(vn, vd), lookupS_mem _ _ _ hl, by rw [hk3]⟩
            · exact Or.inr hk2

/-- The first-member style reference of a group is among the group's member
style names. -/
theorem groupStyleRefs_sub_member : ∀ (cfg : VarConfig) (ty : String)
    (vars : List String) (ms : List String),
    CamsCreate.memberStyleNames cfg ty vars = .ok ms →
    ∃ ss, CamsCreate.groupStyleRefs cfg ty vars = .ok ss ∧ ∀ n ∈ ss, n ∈ ms := by
  intro cfg ty vars ms h
  cases vars with
  | nil =>
      rw [CamsCreate.memberStyleNames] at h
      injection h with h
      exact ⟨[], rfl, by simp⟩
  | cons vn rest =>
      rw [CamsCreate.memberStyleNames] at h
      cases hl : lookupS cfg.varMap vn with
      | none => rw [hl] at h; exact absurd h (by simp)
      | some vd =>
          rw [hl] at h
          cases hr : CamsCreate.memberStyleNames cfg ty rest with
          | error e => rw [hr] at h; exact absurd h (by simp)
          | ok ms' =>
              rw [hr] at h
              injection h with h
              subst h
              exact ⟨_, by rw [CamsCreate.groupStyleRefs, hl], by simp⟩

/-- The recording phase over all groups: the layer keys are exactly the
referenced layer names, every referenced style name is among the style keys,
the style keys are exactly the member style names, and every recorded value
is a backend name from the registry (relative to the starting dicts). -/
theorem recordAll_spec : ∀ (pn : String) (cfg : VarConfig) (ty : String)
    (groups : List (String × GroupData)) (stale st2 : Option String)
    (rl rs rl2 rs2 : List (String × String)),
    CamsCreate.recordAll pn cfg ty groups stale rl rs = .ok (st2, rl2, rs2) →
    ∃ ls ss ms, CamsCreate.packageLayerRefs cfg groups = .ok ls ∧
      CamsCreate.packageStyleRefs cfg ty groups = .ok ss ∧
      CamsCreate.packageMemberStyleNames cfg ty groups = .ok ms ∧
      (∀ n, n ∈ rl2.map Prod.fst ↔ (n ∈ rl.map Prod.fst ∨ n ∈ ls)) ∧
      (∀ n, n ∈ rs2.map Prod.fst ↔ (n ∈ rs.map Prod.fst ∨ n ∈ ms)) ∧
      (∀ n, n ∈ ss → n ∈ ms) ∧
      (∀ kv, kv ∈ rl2 → kv ∈ rl ∨ ∃ p, p ∈ cfg.varMap ∧ p.2.backend_api_name = kv.2) ∧
      (∀ kv, kv ∈ rs2 → kv ∈ rs ∨ ∃ p, p ∈ cfg.varMap ∧ p.2.backend_api_name = kv.2) := by
  intro pn cfg ty groups
  induction groups with
  | nil =>
      intro stale st2 rl rs rl2 rs2 h
      rw [CamsCreate.recordAll] at h
      injection h with h
      injection h with h1 h
      injection h with h2 h3
      subst h2; subst h3
      exact ⟨[], [], [], rfl, rfl, rfl, by simp, by simp, by simp,
        fun kv hk => Or.inl hk, fun kv hk => Or.inl hk⟩
  | cons g rest ih =>
      intro stale st2 rl rs rl2 rs2 h
      obtain ⟨gn, gd⟩ := g
      rw [CamsCreate.recordAll] at h
      cases hrv : CamsCreate.recordVars pn cfg ty gd.varNames stale rl rs with
      | error e => rw [hrv] at h; exact absurd h (by simp)
      | ok r =>
          rw [hrv] at h
          obtain ⟨st1, rl1, rs1⟩ := r
          obtain ⟨lsg, msg, hlsg, hmsg, hiffLg, hiffSg, hvalLg, hvalSg⟩ :=
            recordVars_spec pn cfg ty gd.varNames stale st1 rl rs rl1 rs1 hrv
          obtain ⟨ssg, hssg, hsubg⟩ := groupStyleRefs_sub_member cfg ty gd.varNames msg hmsg
          obtain ⟨lsr, ssr, msr, hlsr, hssr, hmsr, hiffLr, hiffSr, hsubr, hvalLr, hvalSr⟩ :=
            ih st1 st2 rl1 rs1 rl2 rs2 h
          refine ⟨lsg ++ lsr, ssg ++ ssr, msg ++ msr, ?_, ?_, ?_, ?_, ?_, ?_, ?_, ?_⟩
          · rw [CamsCreate.packageLayerRefs, hlsg, hlsr]
          · rw [CamsCreate.packageStyleRefs, hssg, hssr]
          · rw [CamsCreate.packageMemberStyleNames, hmsg, hmsr]
          · intro n
            rw [hiffLr n, hiffLg n]
            simp [List.mem_append]
            tauto
          · intro n
            rw [hiffSr n, hiffSg n]
            simp [List.mem_append]
            tauto
          · intro n hn
            rw [List.mem_append] at hn
            rcases hn with hn | hn
            · exact List.mem_append_left _ (hsubg n hn)
            · exact List.mem_append_right _ (hsubr n hn)
          · intro kv hk
            rcases hvalLr kv hk with hk2 | hk2
            · rcases hvalLg kv hk2 with hk3 | hk3
              · exact Or.inl hk3
              · exact Or.inr hk3
            · exact Or.inr hk2
          · intro kv hk
            rcases hvalSr kv hk with hk2 | hk2
            · rcases hvalSg kv hk2 with hk3 | hk3
              · exact Or.inl hk3
              · exact Or.inr hk3
            · exact Or.inr hk2

/-- A backend name held by some registry entry is found by the backend
search of the build loops. -/
theorem findByBackend_isSome : ∀ (m : List (String × VarData)) (bn : String),
    (∃ p, p ∈ m ∧ p.2.backend_api_name = bn) →
    (CamsCreate.findByBackend m bn).isSome = true := by
  intro m bn
  induction m with
  | nil => rintro ⟨p, hp, _⟩; simp at hp
  | cons kv rest ih =>
      rintro ⟨p, hp, hbn⟩
      obtain ⟨k1, v1⟩ := kv
      rw [CamsCreate.findByBackend]
      by_cases hv : v1.backend_api_name = bn
      · rw [if_pos hv]; rfl
      · rw [if_neg hv]
        rcases List.mem_cons.mp hp with hp1 | hp1
        · rw [hp1] at hbn
          exact absurd hbn hv
        · exact ih ⟨p, hp1, hbn⟩

/-- A successful layer build loop writes one file per recorded layer, named
after the recorded layer name. -/
theorem buildRequiredLayers_names : ∀ (pn : String) (cfg : VarConfig) (ltm : Json)
    (st : Option String) (rl : List (String × String)) (louts : List (RPath × Json)),
    CamsCreate.buildRequiredLayers pn cfg ltm st rl = .ok louts →
    louts.map Prod.fst = rl.map (fun kv => RPath.layer (kv.1 ++ ".json")) := by
  intro pn cfg ltm st rl
  induction rl with
  | nil =>
      intro louts h
      rw [CamsCreate.buildRequiredLayers] at h
      injection h with h
      subst h
      rfl
  | cons kv rest ih =>
      intro louts h
      obtain ⟨ln, bn⟩ := kv
      rw [CamsCreate.buildRequiredLayers] at h
      cases hf : CamsCreate.findByBackend cfg.varMap bn with
      | none => rw [hf] at h; exact absurd h (by simp)
      | some vd =>
          rw [hf] at h
          cases st with
          | none => exact absurd h (by simp)
          | some vn =>
              have h2 : (match ForecastLayers.create_layer vn vd ltm cfg with
                  | Except.error e => Except.error e
                  | Except.ok new_layer =>
                      match CamsCreate.buildRequiredLayers pn cfg ltm (some vn) rest with
                      | Except.ok outs =>
                          Except.ok ((RPath.layer (ln ++ ".json"), new_layer) :: outs)
                      | Except.error e => Except.error e) = Except.ok louts := h
              cases hc : ForecastLayers.create_layer vn vd ltm cfg with
              | error e => rw [hc] at h2; exact absurd h2 (by simp)
              | ok nl =>
                  rw [hc] at h2
                  cases hr : CamsCreate.buildRequiredLayers pn cfg ltm (some vn) rest with
                  | error e => rw [hr] at h2; exact absurd h2 (by simp)
                  | ok outs =>
                      rw [hr] at h2
                      injection h2 with h2
                      subst h2
                      simp [ih outs hr]

/-- A successful style build loop writes one file per recorded style, named
after the recorded style name. -/
theorem buildRequiredStyles_names : ∀ (pn : String) (cfg : VarConfig)
    (scfg : List (String × VariantSettings)) (stm : Json) (ty : String)
    (st : Option String) (rs : List (String × String)) (souts : List (RPath × Json)),
    CamsCreate.buildRequiredStyles pn cfg scfg stm ty st rs = .ok souts →
    souts.map Prod.fst = rs.map (fun kv => RPath.style (kv.1 ++ ".json")) := by
  intro pn cfg scfg stm ty st rs
  induction rs with
  | nil =>
      intro souts h
      rw [CamsCreate.buildRequiredStyles] at h
      injection h with h
      subst h
      rfl
  | cons kv rest ih =>
      intro souts h
      obtain ⟨sn, bn⟩ := kv
      rw [CamsCreate.buildRequiredStyles] at h
      cases hf : CamsCreate.findByBackend cfg.varMap bn with
      | none => rw [hf] at h; exact absurd h (by simp)
      | some vd =>
          rw [hf] at h
          cases st with
          | none => exact absurd h (by simp)
          | some vn =>
              have h2 : (match ForecastStyles.create_style vn vd.backend_api_name scfg stm ty with
                  | Except.error e => Except.error e
                  | Except.ok new_style =>
                      match CamsCreate.buildRequiredStyles pn cfg scfg stm ty (some vn) rest with
                      | Except.ok outs =>
                          Except.ok ((RPath.style (sn ++ ".json"), new_style) :: outs)
                      | Except.error e => Except.error e) = Except.ok souts := h
              cases hc : ForecastStyles.create_style vn vd.backend_api_name scfg stm ty with
              | error e => rw [hc] at h2; exact absurd h2 (by simp)
              | ok ns =>
                  rw [hc] at h2
                  cases hr : CamsCreate.buildRequiredStyles pn cfg scfg stm ty (some vn) rest with
                  | error e => rw [hr] at h2; exact absurd h2 (by simp)
                  | ok outs =>
                      rw [hr] at h2
                      injection h2 with h2
                      subst h2
                      simp [ih outs hr]

/-- The required-resources dicts accumulated by `processGroups` (products
interleaved) are the ones the recording fold accumulates. -/
theorem processGroups_recordAll : ∀ (pn : String) (cfg : VarConfig) (ty : String)
    (ptm : Json) (psub : String) (groups : List (String × GroupData))
    (stale st3 : Option String) (rl rs rl3 rs3 : List (String × String))
    (po : List (RPath × Json)),
    CamsCreate.processGroups pn cfg ty ptm psub groups stale rl rs = .ok (po, st3, rl3, rs3) →
    CamsCreate.recordAll pn cfg ty groups stale rl rs = .ok (st3, rl3, rs3) := by
  intro pn cfg ty ptm psub groups
  induction groups with
  | nil =>
      intro stale st3 rl rs rl3 rs3 po h
      rw [CamsCreate.processGroups] at h
      injection h with h
      injection h with h1 h
      injection h with h2 h
      injection h with h3 h4
      rw [CamsCreate.recordAll, h2, h3, h4]
  | cons g rest ih =>
      intro stale st3 rl rs rl3 rs3 po h
      obtain ⟨gn, gd⟩ := g
      rw [CamsCreate.processGroups] at h
      cases hcp : CamsCreate.create_grouped_product gn gd ptm cfg ty with
      | error e => rw [hcp] at h; exact absurd h (by simp)
      | ok np =>
          rw [hcp] at h
          have h2 : (match np.getE "name" with
              | Except.ok (Json.str pname) =>
                  match CamsCreate.recordVars pn cfg ty gd.varNames stale rl rs with
                  | Except.error e => Except.error e
                  | Except.ok (stale2, rl2, rs2) =>
                      match CamsCreate.processGroups pn cfg ty ptm psub rest stale2 rl2 rs2 with
                      | Except.error e => Except.error e
                      | Except.ok (outs, stale3, rl3, rs3) =>
                          Except.ok ((RPath.product psub (pname ++ "-" ++ ty ++ ".json"), np)
                            :: outs, stale3, rl3, rs3)
              | Except.ok a => Except.error (PyError.typeError "str expected")
              | Except.error e => Except.error e) = Except.ok (po, st3, rl3, rs3) := h
          cases hname : np.getE "name" with
          | error e => rw [hname] at h2; exact absurd h2 (by simp)
          | ok nv =>
              rw [hname] at h2
              cases nv with
              | str pname =>
                  have h3 : (match CamsCreate.recordVars pn cfg ty gd.varNames stale rl rs with
                      | Except.error e => Except.error e
                      | Except.ok (stale2, rl2, rs2) =>
                          match CamsCreate.processGroups pn cfg ty ptm psub rest stale2 rl2 rs2 with
                          | Except.error e => Except.error e
                          | Except.ok (outs, stale3, rl3, rs3) =>
                              Except.ok ((RPath.product psub (pname ++ "-" ++ ty ++ ".json"), np)
                                :: outs, stale3, rl3, rs3)) = Except.ok (po, st3, rl3, rs3) := h2
                  cases hrv : CamsCreate.recordVars pn cfg ty gd.varNames stale rl rs with
                  | error e => rw [hrv] at h3; exact absurd h3 (by simp)
                  | ok r =>
                      rw [hrv] at h3
                      obtain ⟨st1, rl1, rs1⟩ := r
                      have h4 : (match CamsCreate.processGroups pn cfg ty ptm psub rest st1 rl1 rs1 with
                          | Except.error e => Except.error e
                          | Except.ok (outs, stale3, rl3, rs3) =>
                              Except.ok ((RPath.product psub (pname ++ "-" ++ ty ++ ".json"), np)
                                :: outs, stale3, rl3, rs3)) = Except.ok (po, st3, rl3, rs3) := h3
                      cases hpg : CamsCreate.processGroups pn cfg ty ptm psub rest st1 rl1 rs1 with
                      | error e => rw [hpg] at h4; exact absurd h4 (by simp)
                      | ok r2 =>
                          rw [hpg] at h4
                          obtain ⟨po2, st4, rl4, rs4⟩ := r2
                          injection h4 with h4
                          injection h4 with ha h4
                          injection h4 with hb h4
                          injection h4 with hc hd
                          subst hb; subst hc; subst hd
                          rw [CamsCreate.recordAll, hrv]
                          exact ih _ _ _ _ _ _ _ hpg
              | null => exact absurd h2 (by simp)
              | bool b => exact absurd h2 (by simp)
              | int n => exact absurd h2 (by simp)
              | arr xs => exact absurd h2 (by simp)
              | obj fs => exact absurd h2 (by simp)

/-- C1 (amended): for a successfully processed package, the generated layers
are exactly the layer names its products reference, every style name the
products reference is generated, and the build loops write exactly the
recorded names (never a missing-metadata failure for a recorded backend
name); but the generated styles are one per member variable — given by
`packageMemberStyleNames` — which can strictly exceed the styles the
products reference (`packageStyleRefs` derives one style per group, from the
group's first listed variable). The final conjunct ties the recording fold
to the product-interleaved loop of `process_package`. -/
theorem process_package_builds_exactly_referenced :
    ∀ (pn : String) (cfg : VarConfig) (ty : String) (groups : List (String × GroupData))
      (st2 : Option String) (rl2 rs2 : List (String × String)),
      CamsCreate.recordAll pn cfg ty groups none [] [] = .ok (st2, rl2, rs2) →
      ∃ ls ss,
        CamsCreate.packageLayerRefs cfg groups = .ok ls ∧
        CamsCreate.packageStyleRefs cfg ty groups = .ok ss ∧
        (∀ n, n ∈ rl2.map Prod.fst ↔ n ∈ ls) ∧
        (∀ n, n ∈ ss → n ∈ rs2.map Prod.fst) ∧
        (∀ kv, kv ∈ rl2 → (CamsCreate.findByBackend cfg.varMap kv.2).isSome = true) ∧
        (∀ kv, kv ∈ rs2 → (CamsCreate.findByBackend cfg.varMap kv.2).isSome = true) ∧
        (∀ ltm louts, CamsCreate.buildRequiredLayers pn cfg ltm st2 rl2 = .ok louts →
          louts.map Prod.fst = rl2.map (fun kv => RPath.layer (kv.1 ++ ".json"))) ∧
        (∀ stm scfg souts,
          CamsCreate.buildRequiredStyles pn cfg scfg stm ty st2 rs2 = .ok souts →
          souts.map Prod.fst = rs2.map (fun kv => RPath.style (kv.1 ++ ".json"))) ∧
        (∀ ptm psub po st3 rl3 rs3,
          CamsCreate.processGroups pn cfg ty ptm psub groups none [] []
            = .ok (po, st3, rl3, rs3) →
          st3 = st2 ∧ rl3 = rl2 ∧ rs3 = rs2) := by
  intro pn cfg ty groups st2 rl2 rs2 h
  obtain ⟨ls, ss, ms, hls, hss, hms, hiffL, hiffS, hsub, hvalL, hvalS⟩ :=
    recordAll_spec pn cfg ty groups none st2 [] [] rl2 rs2 h
  refine ⟨ls, ss, hls, hss, ?_, ?_, ?_, ?_,
    fun ltm louts hb => buildRequiredLayers_names pn cfg ltm st2 rl2 louts hb,
    fun stm scfg souts hb => buildRequiredStyles_names pn cfg scfg stm ty st2 rs2 souts hb,
    ?_⟩
  · intro n
    have := hiffL n
    simpa using this
  · intro n hn
    exact (hiffS n).mpr (Or.inr (hsub n hn))
  · intro kv hk
    rcases hvalL kv hk with hk2 | hk2
    · simp at hk2
    · exact findByBackend_isSome _ _ hk2
  · intro kv hk
    rcases hvalS kv hk with hk2 | hk2
    · simp at hk2
    · exact findByBackend_isSome _ _ hk2
  · intro ptm psub po st3 rl3 rs3 hp
    have h2 := processGroups_recordAll pn cfg ty ptm psub groups none st3 [] [] rl3 rs3 po hp
    have h3 := h2.symm.trans h
    injection h3 with h3
    injection h3 with ha h3
    injection h3 with hb hc
    exact ⟨ha, hb, hc⟩

/-- C1 counterexample: on the fixture package grouping `nitrogen_dioxide`
and `ozone`, the recording loop accumulates (and the build loop therefore
generates) two styles, while the grouped product references only the first
member's style, so the generated style set is strictly larger than the
referenced style set — the claim's set equality fails for styles. -/
theorem aggregator_styles_cex :
    CamsCreate.recordAll "cams_air_quality" exVarConfig "web" exGroups none [] []
      = .ok (some "ozone", exRL, exRS) ∧
    CamsCreate.packageStyleRefs exVarConfig "web" exGroups
      = .ok ["sh_no2_web_surface_concentration"] ∧
    exRS.map Prod.fst
      = ["sh_no2_web_surface_concentration", "sh_o3_web_surface_concentration"] ∧
    "sh_o3_web_surface_concentration" ∈ exRS.map Prod.fst ∧
    "sh_o3_web_surface_concentration" ∉ ["sh_no2_web_surface_concentration"] ∧
    CamsCreate.packageLayerRefs exVarConfig exGroups
      = .ok ["composition_europe_no2_forecast_surface",
             "composition_europe_o3_forecast_surface"] :=
  ⟨rfl, rfl, rfl, by decide, by decide, rfl⟩

/-- Witness for `process_package_builds_exactly_referenced` at the fixture
package. -/
theorem process_package_agg_witness :
    CamsCreate.recordAll "cams_air_quality" exVarConfig "web" exGroups none [] []
      = .ok (some "ozone", exRL, exRS) ∧
    (∃ ls ss,
      CamsCreate.packageLayerRefs exVarConfig exGroups = .ok ls ∧
      CamsCreate.packageStyleRefs exVarConfig "web" exGroups = .ok ss ∧
      (∀ n, n ∈ exRL.map Prod.fst ↔ n ∈ ls) ∧
      (∀ n, n ∈ ss → n ∈ exRS.map Prod.fst) ∧
      (∀ kv, kv ∈ exRL → (CamsCreate.findByBackend exVarConfig.varMap kv.2).isSome = true) ∧
      (∀ kv, kv ∈ exRS → (CamsCreate.findByBackend exVarConfig.varMap kv.2).isSome = true) ∧
      (∀ ltm louts,
        CamsCreate.buildRequiredLayers "cams_air_quality" exVarConfig ltm (some "ozone") exRL
          = .ok louts →
        louts.map Prod.fst = exRL.map (fun kv => RPath.layer (kv.1 ++ ".json"))) ∧
      (∀ stm scfg souts,
        CamsCreate.buildRequiredStyles "cams_air_quality" exVarConfig scfg stm "web"
          (some "ozone") exRS = .ok souts →
        souts.map Prod.fst = exRS.map (fun kv => RPath.style (kv.1 ++ ".json"))) ∧
      (∀ ptm psub po st3 rl3 rs3,
        CamsCreate.processGroups "cams_air_quality" exVarConfig "web" ptm psub exGroups
          none [] [] = .ok (po, st3, rl3, rs3) →
        st3 = some "ozone" ∧ rl3 = exRL ∧ rs3 = exRS)) :=
  ⟨rfl, process_package_builds_exactly_referenced "cams_air_quality" exVarConfig "web"
    exGroups (some "ozone") exRL exRS rfl⟩

/-- Every product file written by the grouped-products loop lives in the
package's product subdirectory. -/
theorem processGroups_paths : ∀ (pn : String) (cfg : VarConfig) (ty : String)
    (ptm : Json) (psub : String) (groups : List (String × GroupData))
    (stale st3 : Option String) (rl rs rl3 rs3 : List (String × String))
    (po : List (RPath × Json)),
    CamsCreate.processGroups pn cfg ty ptm psub groups stale rl rs = .ok (po, st3, rl3, rs3) →
    ∀ pc, pc ∈ po → ∃ f, pc.1 = RPath.product psub f := by
  intro pn cfg ty ptm psub groups
  induction groups with
  | nil =>
      intro stale st3 rl rs rl3 rs3 po h
      rw [CamsCreate.processGroups] at h
      injection h with h
      injection h with h1 h
      subst h1
      intro pc hpc
      simp at hpc
  | cons g rest ih =>
      intro stale st3 rl rs rl3 rs3 po h
      obtain ⟨gn, gd⟩ := g
      rw [CamsCreate.processGroups] at h
      cases hcp : CamsCreate.create_grouped_product gn gd ptm cfg ty with
      | error e => rw [hcp] at h; exact absurd h (by simp)
      | ok np =>
          rw [hcp] at h
          have h2 : (match np.getE "name" with
              | Except.ok (Json.str pname) =>
                  match CamsCreate.recordVars pn cfg ty gd.varNames stale rl rs with
                  | Except.error e => Except.error e
                  | Except.ok (stale2, rl2, rs2) =>
                      match CamsCreate.processGroups pn cfg ty ptm psub rest stale2 rl2 rs2 with
                      | Except.error e => Except.error e
                      | Except.ok (outs, stale3, rl3, rs3) =>
                          Except.ok ((RPath.product psub (pname ++ "-" ++ ty ++ ".json"), np)
                            :: outs, stale3, rl3, rs3)
              | Except.ok a => Except.error (PyError.typeError "str expected")
              | Except.error e => Except.error e) = Except.ok (po, st3, rl3, rs3) := h
          cases hname : np.getE "name" with
          | error e => rw [hname] at h2; exact absurd h2 (by simp)
          | ok nv =>
              rw [hname] at h2
              cases nv with
              | str pname =>
                  have h3 : (match CamsCreate.recordVars pn cfg ty gd.varNames stale rl rs with
                      | Except.error e => Except.error e
                      | Except.ok (stale2, rl2, rs2) =>
                          match CamsCreate.processGroups pn cfg ty ptm psub rest stale2 rl2 rs2 with
                          | Except.error e => Except.error e
                          | Except.ok (outs, stale3, rl3, rs3) =>
                              Except.ok ((RPath.product psub (pname ++ "-" ++ ty ++ ".json"), np)
                                :: outs, stale3, rl3, rs3)) = Except.ok (po, st3, rl3, rs3) := h2
                  cases hrv : CamsCreate.recordVars pn cfg ty gd.varNames stale rl rs with
                  | error e => rw [hrv] at h3; exact absurd h3 (by simp)
                  | ok r =>
                      rw [hrv] at h3
                      obtain ⟨st1, rl1, rs1⟩ := r
                      have h4 : (match CamsCreate.processGroups pn cfg ty ptm psub rest st1 rl1 rs1 with
                          | Except.error e => Except.error e
                          | Except.ok (outs, stale3, rl3, rs3) =>
                              Except.ok ((RPath.product psub (pname ++ "-" ++ ty ++ ".json"), np)
                                :: outs, stale3, rl3, rs3)) = Except.ok (po, st3, rl3, rs3) := h3
                      cases hpg : CamsCreate.processGroups pn cfg ty ptm psub rest st1 rl1 rs1 with
                      | error e => rw [hpg] at h4; exact absurd h4 (by simp)
                      | ok r2 =>
                          rw [hpg] at h4
                          obtain ⟨po2, st4, rl4, rs4⟩ := r2
                          injection h4 with h4
                          injection h4 with ha h4
                          subst ha
                          intro pc hpc
                          rcases List.mem_cons.mp hpc with hpc | hpc
                          · exact ⟨pname ++ "-" ++ ty ++ ".json", by rw [hpc]⟩
                          · exact ih _ _ _ _ _ _ _ hpg pc hpc
              | null => exact absurd h2 (by simp)
              | bool b => exact absurd h2 (by simp)
              | int n => exact absurd h2 (by simp)
              | arr xs => exact absurd h2 (by simp)
              | obj fs => exact absurd h2 (by simp)

/-- Every file written by `process_package` lives under one of the four
cleared output directories. -/
theorem process_package_paths : ∀ (pn : String) (pd : PackageData) (tm : Templates)
    (cfg : VarConfig) (sc : List (String × VariantSettings)) (ty : String)
    (outs : List (RPath × Json)),
    CamsCreate.process_package pn pd tm cfg sc ty = .ok outs →
    ∀ pc, pc ∈ outs → isManaged pc.1 = true := by
  intro pn pd tm cfg sc ty outs h
  rw [CamsCreate.process_package] at h
  cases hcp : ResourceUtils.create_package pn pd tm.package with
  | error e => rw [hcp] at h; exact absurd h (by simp)
  | ok np =>
      rw [hcp] at h
      cases hpg : CamsCreate.processGroups pn cfg ty tm.product (pn ++ "_" ++ ty)
          pd.grouped none [] [] with
      | error e => rw [hpg] at h; exact absurd h (by simp)
      | ok r =>
          rw [hpg] at h
          obtain ⟨po, stale, rl, rs⟩ := r
          have h2 : (match CamsCreate.buildRequiredLayers pn cfg tm.layer stale rl with
              | Except.error e => Except.error e
              | Except.ok layerOuts =>
                  match CamsCreate.buildRequiredStyles pn cfg sc tm.style ty stale rs with
                  | Except.error e => Except.error e
                  | Except.ok styleOuts =>
                      Except.ok ((RPath.package (pn ++ ".json"), np)
                        :: po ++ layerOuts ++ styleOuts)) = Except.ok outs := h
          cases hbl : CamsCreate.buildRequiredLayers pn cfg tm.layer stale rl with
          | error e => rw [hbl] at h2; exact absurd h2 (by simp)
          | ok louts =>
              rw [hbl] at h2
              cases hbs : CamsCreate.buildRequiredStyles pn cfg sc tm.style ty stale rs with
              | error e => rw [hbs] at h2; exact absurd h2 (by simp)
              | ok souts =>
                  rw [hbs] at h2
                  injection h2 with h2
                  subst h2
                  intro pc hpc
                  rcases List.mem_cons.mp hpc with hpc | hpc
                  · rw [hpc]; rfl
                  · simp only [List.append_eq, List.append_assoc, List.mem_append] at hpc
                    rcases hpc with hpc | hpc | hpc
                    · obtain ⟨f, hf⟩ :=
                        processGroups_paths pn cfg ty tm.product (pn ++ "_" ++ ty)
                          pd.grouped none stale [] [] rl rs po hpg pc hpc
                      rw [hf]; rfl
                    · have hnames := buildRequiredLayers_names pn cfg tm.layer stale rl louts hbl
                      have hmem : pc.1 ∈ louts.map Prod.fst := List.mem_map_of_mem _ hpc
                      rw [hnames] at hmem
                      rw [List.mem_map] at hmem
                      obtain ⟨kv, _, hkv⟩ := hmem
                      rw [← hkv]; rfl
                    · have hnames :=
                        buildRequiredStyles_names pn cfg sc tm.style ty stale rs souts hbs
                      have hmem : pc.1 ∈ souts.map Prod.fst := List.mem_map_of_mem _ hpc
                      rw [hnames] at hmem
                      rw [List.mem_map] at hmem
                      obtain ⟨kv, _, hkv⟩ := hmem
                      rw [← hkv]; rfl

/-- Every file a successful run writes lives under one of the four cleared
output directories. -/
theorem runOutputs_paths : ∀ (cfg : CamsCreate.RunConfig) (outs : List (RPath × String)),
    CamsCreate.runOutputs cfg = .ok outs →
    ∀ pc, pc ∈ outs → isManaged pc.1 = true := by
  intro cfg outs h
  rw [CamsCreate.runOutputs] at h
  cases hpl : CamsCreate.packagesLoop cfg.templates cfg.var_config cfg.style_config
      cfg.packages with
  | error e => rw [hpl] at h; exact absurd h (by simp)
  | ok jouts =>
      rw [hpl] at h
      injection h with h
      subst h
      have hj : ∀ pc, pc ∈ jouts → isManaged pc.1 = true := by
        revert jouts
        generalize cfg.packages = pkgs
        induction pkgs with
        | nil =>
            intro jouts hpl
            have hpl2 : (Except.ok [] : Except PyError (List (RPath × Json)))
                = Except.ok jouts := hpl
            injection hpl2 with hpl2
            subst hpl2
            intro pc hpc
            simp at hpc
        | cons kv rest ih =>
            intro jouts hpl
            obtain ⟨pn2, pd2⟩ := kv
            have hpl2 : (match CamsCreate.process_package pn2 pd2 cfg.templates cfg.var_config
                  cfg.style_config "web" with
              | Except.error e => Except.error e
              | Except.ok outs =>
                  match CamsCreate.packagesLoop cfg.templates cfg.var_config
                      cfg.style_config rest with
                  | Except.ok outs2 => Except.ok (outs ++ outs2)
                  | Except.error e => Except.error e) = Except.ok jouts := hpl
            cases hpp : CamsCreate.process_package pn2 pd2 cfg.templates cfg.var_config
                cfg.style_config "web" with
            | error e => rw [hpp] at hpl2; exact absurd hpl2 (by simp)
            | ok pouts =>
                rw [hpp] at hpl2
                cases hrest : CamsCreate.packagesLoop cfg.templates cfg.var_config
                    cfg.style_config rest with
                | error e => rw [hrest] at hpl2; exact absurd hpl2 (by simp)
                | ok routs =>
                    rw [hrest] at hpl2
                    injection hpl2 with hpl
                    subst hpl
                    intro pc hpc
                    rw [List.mem_append] at hpc
                    rcases hpc with hpc | hpc
                    · exact process_package_paths pn2 pd2 cfg.templates cfg.var_config
                        cfg.style_config "web" pouts hpp pc hpc
                    · exact ih routs hrest pc hpc
      intro pc hpc
      rw [List.mem_map] at hpc
      obtain ⟨q, hq, hq2⟩ := hpc
      have := hj q hq
      rw [← hq2]
      exact this

/-- A path none of the written files uses is untouched by `writeAll`. -/
theorem writeAll_untouched : ∀ (outs : List (RPath × String)) (fs : FileSys) (p : RPath),
    (∀ pc ∈ outs, pc.1 ≠ p) → writeAll outs fs p = fs p := by
  intro outs
  induction outs with
  | nil => intro fs p _; rfl
  | cons pc rest ih =>
      intro fs p hne
      rw [writeAll, List.foldl_cons]
      have := ih (fun q => if q = pc.1 then some pc.2 else fs q) p
        (fun q hq => hne q (List.mem_cons_of_mem _ hq))
      rw [writeAll] at this
      rw [this]
      have hp : ¬p = pc.1 := fun h => hne pc (List.mem_cons_self _ _) h.symm
      show (if p = pc.1 then some pc.2 else fs p) = fs p
      rw [if_neg hp]

/-- The value `writeAll` leaves at a path depends on the starting file system
only through that same path. -/
theorem writeAll_point : ∀ (outs : List (RPath × String)) (fs fs2 : FileSys) (p : RPath),
    fs p = fs2 p → writeAll outs fs p = writeAll outs fs2 p := by
  intro outs
  induction outs with
  | nil => intro fs fs2 p h; exact h
  | cons pc rest ih =>
      intro fs fs2 p h
      rw [writeAll, List.foldl_cons, writeAll, List.foldl_cons]
      have := ih (fun q => if q = pc.1 then some pc.2 else fs q)
        (fun q => if q = pc.1 then some pc.2 else fs2 q) p
        (by by_cases hq : p = pc.1 <;> simp [hq, h])
      rw [writeAll] at this
      rw [writeAll] at this
      exact this

/-- C7: a successful run writes only under the four cleared directories, so
running it again over its own result changes nothing (byte-identical files),
and the files it leaves in the managed region — in particular every
generated resource — do not depend on the file system the run started from:
the output is a function of the configuration alone. -/
theorem run_idempotent_and_input_independent :
    ∀ (cfg : CamsCreate.RunConfig) (outs : List (RPath × String)) (fs fs2 : FileSys),
      CamsCreate.runOutputs cfg = .ok outs →
      runOnce outs (runOnce outs fs) = runOnce outs fs ∧
      (∀ p, isManaged p = true → runOnce outs fs p = runOnce outs fs2 p) ∧
      (∀ pc, pc ∈ outs → runOnce outs fs pc.1 = runOnce outs fs2 pc.1) := by
  intro cfg outs fs fs2 h
  have hman := runOutputs_paths cfg outs h
  have hind : ∀ (g g2 : FileSys) (p : RPath), isManaged p = true →
      runOnce outs g p = runOnce outs g2 p := by
    intro g g2 p hp
    have hc : clearManaged g p = clearManaged g2 p := by simp [clearManaged, hp]
    exact writeAll_point outs (clearManaged g) (clearManaged g2) p hc
  refine ⟨?_, fun p hp => hind fs fs2 p hp, fun pc hpc => hind fs fs2 pc.1 (hman pc hpc)⟩
  funext p
  by_cases hp : isManaged p = true
  · exact hind (runOnce outs fs) fs p hp
  · have hne : ∀ pc ∈ outs, pc.1 ≠ p := fun pc hpc he => hp (he ▸ hman pc hpc)
    have hstep : ∀ g : FileSys, runOnce outs g p = g p := by
      intro g
      have h1 : writeAll outs (clearManaged g) p = clearManaged g p :=
        writeAll_untouched outs (clearManaged g) p hne
      have h2 : clearManaged g p = g p := by simp [clearManaged, hp]
      exact h1.trans h2
    rw [hstep (runOnce outs fs)]

/-- Witness for `run_idempotent_and_input_independent`: the run on the
fixture configuration succeeds and rerunning it over its own output is a
fixed point. -/
theorem run_idempotent_witness :
    CamsCreate.runOutputs exRunConfig = .ok exRunOuts ∧
    runOnce exRunOuts (runOnce exRunOuts emptyFs) = runOnce exRunOuts emptyFs :=
  ⟨rfl,
    (run_idempotent_and_input_independent exRunConfig exRunOuts emptyFs emptyFs rfl).1⟩
